/-
Verification development for the `ei` host-based firewall manager.

The Rust source is shallowly embedded: every external command invocation
(iptables, ip6tables, ipset) is modelled as a `Cmd` value recorded in a
trace, with an environment oracle `Env` deciding the textual result or
failure of each command.  A computation is a function from the oracle to
the list of commands it issues together with its outcome.  Rust `?`
corresponds to monadic bind, `let _ = e;` to `ignoreErr`, `if let Ok(v)`
to `ifOkM`, `.unwrap()` to `unwrapM` (turning an error into a panic), and
the `todo!` macro to `todoM`.
-/
import Mathlib

/-- An external command: program name and argument list. -/
structure Cmd where
  prog : String
  args : List String
deriving DecidableEq

/-- Outcome of an embedded computation: normal result, recoverable error
    (Rust `Err`), or abnormal termination (Rust panic). -/
inductive Res (α : Type) where
  | ok : α → Res α
  | err : String → Res α
  | panicked : String → Res α
deriving DecidableEq

/-- The oracle assigning to every issued command its stdout or failure. -/
def Env : Type := Cmd → Except String String

/-- A computation issuing commands: given the oracle it returns the list of
    commands it issued and its outcome. -/
def M (α : Type) : Type := Env → List Cmd × Res α

def M.pure {α : Type} (a : α) : M α := fun _ => ([], Res.ok a)

def M.bind {α β : Type} (m : M α) (f : α → M β) : M β := fun env =>
  match m env with
  | (t, Res.ok a) =>
    match f a env with
    | (t2, r) => (t ++ t2, r)
  | (t, Res.err e) => (t, Res.err e)
  | (t, Res.panicked e) => (t, Res.panicked e)

instance : Monad M where
  pure := M.pure
  bind := M.bind

/-- Issue one external command and return its stdout, or fail. -/
def execCmd (prog : String) (args : List String) : M String := fun env =>
  ([⟨prog, args⟩],
    match env ⟨prog, args⟩ with
    | Except.ok s => Res.ok s
    | Except.error e => Res.err e)

/-- Rust `let _ = e;`: run, discard a recoverable error. Panics still escape. -/
def ignoreErr {α : Type} (m : M α) : M Unit := fun env =>
  match m env with
  | (t, Res.ok _) => (t, Res.ok ())
  | (t, Res.err _) => (t, Res.ok ())
  | (t, Res.panicked e) => (t, Res.panicked e)

/-- Rust `if let Ok(v) = e`: run, turn the outcome into an `Option`. -/
def ifOkM {α : Type} (m : M α) : M (Option α) := fun env =>
  match m env with
  | (t, Res.ok a) => (t, Res.ok (some a))
  | (t, Res.err _) => (t, Res.ok none)
  | (t, Res.panicked e) => (t, Res.panicked e)

/-- Rust `.unwrap()`: an error becomes a panic. -/
def unwrapM {α : Type} (m : M α) : M α := fun env =>
  match m env with
  | (t, Res.ok a) => (t, Res.ok a)
  | (t, Res.err e) => (t, Res.panicked e)
  | (t, Res.panicked e) => (t, Res.panicked e)

/-- Rust `todo!`: unconditional panic. -/
def todoM (msg : String) : M Unit := fun _ => ([], Res.panicked msg)

/-- The trace of commands a computation issues under an oracle. -/
def runTr {α : Type} (m : M α) (env : Env) : List Cmd := (m env).1

/-- The outcome of a computation under an oracle. -/
def resOf {α : Type} (m : M α) (env : Env) : Res α := (m env).2

/-- An oracle on which every command succeeds, with stdout given by `f`. -/
def okEnv (f : Cmd → String) : Env := fun c => Except.ok (f c)

/-! Rule model and textual parsing, embedded from `src/rules.rs`.
    Strings are handled at the character level: Rust `split('/')`,
    `starts_with`, slicing and `to_lowercase` are modelled on `List Char`. -/

/-- Numeric value of a decimal digit character. -/
def chVal (c : Char) : Nat := c.toNat - '0'.toNat

/-- Decimal value of a digit string. -/
def digitsVal (l : List Char) : Nat := l.foldl (fun a c => 10 * a + chVal c) 0

/-- Drop one leading `+` sign, as Rust unsigned-integer parsing accepts. -/
def stripPlus (l : List Char) : List Char :=
  match l with
  | c :: rest => if c = '+' then rest else l
  | [] => l

/-- Rust `str::parse::<u16>()`: optional `+`, a nonempty digit string,
    value at most 65535. -/
def parseU16 (l : List Char) : Option Nat :=
  let body := stripPlus l
  if body.isEmpty then none
  else if body.all Char.isDigit then
    if digitsVal body ≤ 65535 then some (digitsVal body) else none
  else none

/-- Rust `str::split(sep)` on characters: always at least one piece, empty
    pieces kept. -/
def splitChar (sep : Char) : List Char → List (List Char)
  | [] => [[]]
  | c :: cs =>
    if c = sep then [] :: splitChar sep cs
    else
      match splitChar sep cs with
      | [] => [[c]]
      | p :: ps => (c :: p) :: ps

/-- Rust `str::to_lowercase` restricted to the ASCII range, character-wise. -/
def lowerChars (l : List Char) : List Char := l.map Char.toLower

/-- `Protocol` from `src/rules.rs`. -/
inductive Protocol where
  | TCP
  | UDP
deriving DecidableEq

/-- `IpListUrls` from `src/rules.rs`. -/
structure IpListUrls where
  ipv4 : String
  ipv6 : String
deriving DecidableEq

/-- `IpListConfig` from `src/rules.rs`. -/
structure IpListConfig where
  urls : IpListUrls
  enabled : Bool
deriving DecidableEq

/-- `Rule` from `src/rules.rs` (`PortRule`, `IpListRule`, `IpSetRule`
    inlined). -/
inductive Rule where
  | Port (number : Nat) (protocol : Protocol)
  | IpList (name : String) (config : Option IpListConfig)
  | IpSet (name : String)
deriving DecidableEq

/-- `impl FromStr for Protocol`: case-insensitive `tcp` / `udp`. -/
def protocolFromChars (l : List Char) : Except String Protocol :=
  if lowerChars l = "tcp".data then Except.ok Protocol.TCP
  else if lowerChars l = "udp".data then Except.ok Protocol.UDP
  else Except.error "Protocol must be tcp or udp"

/-- `impl FromStr for Rule` from `src/rules.rs`. -/
def ruleFromStr (s : String) : Except String Rule :=
  let cs := s.data
  if cs.contains '/' then
    let parts := splitChar '/' cs
    if parts.length ≠ 2 then
      Except.error "Invalid port format. Expected: port/protocol"
    else
      match parseU16 (parts.headD []) with
      | none => Except.error "Invalid port number"
      | some port =>
        match protocolFromChars (parts.getD 1 []) with
        | Except.error _ => Except.error "Invalid protocol"
        | Except.ok proto => Except.ok (Rule.Port port proto)
  else if "iplist:".data.isPrefixOf cs then
    if cs.length ≤ 7 then Except.error "Invalid iplist format. Expected: iplist:<name>"
    else Except.ok (Rule.IpList (String.mk (cs.drop 7)) none)
  else if "ipset:".data.isPrefixOf cs then
    if cs.length ≤ 6 then Except.error "Invalid ipset format. Expected: ipset:<name>"
    else Except.ok (Rule.IpSet (String.mk (cs.drop 6)))
  else Except.error "Invalid rule format"

/-- Decimal digit string of a natural number, most significant digit first
    (the form produced by Rust `u16::to_string`; used to state parsing
    claims over every port number). -/
def natToChars (n : Nat) : List Char :=
  if _h : n < 10 then [Nat.digitChar n]
  else natToChars (n / 10) ++ [Nat.digitChar (n % 10)]
decreasing_by exact Nat.div_lt_self (by omega) (by omega)

/-! Configuration snapshot and rule parser, from `src/config.rs` and
    `src/rules.rs`. -/

/-- `FeaturesConfig` from `src/config.rs`. -/
structure FeaturesConfig where
  portforward : Bool
  block_badtcp : Bool
deriving DecidableEq

/-- `AccessListConfig` from `src/config.rs`. -/
structure AccessListConfig where
  enabled : Bool
  rules : List Rule
deriving DecidableEq

/-- `Config` from `src/config.rs` (the server block is irrelevant to the
    claims; the `iplists` map is carried in its enumeration order). -/
structure Config where
  features : FeaturesConfig
  whitelist : AccessListConfig
  blacklist : AccessListConfig
  docker : Bool
  interfaces : List String
  iplists : List (String × IpListConfig)
deriving DecidableEq

/-- `RuleParser` from `src/rules.rs`. -/
structure RuleParser where
  whitelist_rules : List Rule
  blacklist_rules : List Rule
deriving DecidableEq

/-- `RuleParser::new` followed by `RuleParser::parse_config`: a disabled
    access list leaves the corresponding rule list empty. -/
def RuleParser.parse_config (config : Config) : RuleParser where
  whitelist_rules := if config.whitelist.enabled then config.whitelist.rules else []
  blacklist_rules := if config.blacklist.enabled then config.blacklist.rules else []

/-- `RuleParser::get_iplist_rules`: IpList rules of both lists, whitelist
    first, in order, no deduplication. -/
def RuleParser.get_iplist_rules (p : RuleParser) : List Rule :=
  (p.whitelist_rules ++ p.blacklist_rules).filter fun r =>
    match r with
    | Rule.IpList _ _ => true
    | _ => false

/-! The set backend controller, from `src/ipset.rs`.  The two registries of
    tagged set names (Rust `HashSet<String>`) are modelled as lists in the
    enumeration order the hash set happens to produce. -/

/-- The tagged-set-name registries of `IpsetController`. -/
structure IpsetSt where
  whitelist_sets : List String
  blacklist_sets : List String
deriving DecidableEq

/-- Strip one trailing carriage return, as Rust `str::lines` does before
    each newline. -/
def stripCRChars (l : List Char) : List Char :=
  if l.getLast? = some '\r' then l.dropLast else l

/-- Trim ASCII whitespace from both ends (Rust `str::trim` on the ASCII
    range). -/
def trimChars (l : List Char) : List Char :=
  ((l.dropWhile Char.isWhitespace).reverse.dropWhile Char.isWhitespace).reverse

/-- Rust `str::lines`: split at newlines, strip one `\r` before each
    newline, no trailing empty line. -/
def rustLines (s : String) : List String :=
  let parts := splitChar '\n' s.data
  let main := (parts.take (parts.length - 1)).map fun l => String.mk (stripCRChars l)
  match parts.getLast? with
  | some last => if last = [] then main else main ++ [String.mk last]
  | none => main

namespace Ipset

/-- `IpsetController::execute`. -/
def execute (args : List String) : M String := execCmd "ipset" args

/-- `IpsetController::add_to_set`. -/
def add_to_set (set_name : String) (value : String) : M Unit := do
  let _ ← execute ["add", set_name, value]
  pure ()

/-- `IpsetController::add_to_whitelist`. -/
def add_to_whitelist (port : Nat) (protocol : Protocol) : M Unit :=
  add_to_set
    (match protocol with
     | Protocol.TCP => "ei-whitelist-tcp"
     | Protocol.UDP => "ei-whitelist-udp")
    (Nat.repr port)

/-- `IpsetController::add_to_blacklist`. -/
def add_to_blacklist (port : Nat) (protocol : Protocol) : M Unit :=
  add_to_set
    (match protocol with
     | Protocol.TCP => "ei-blacklist-tcp"
     | Protocol.UDP => "ei-blacklist-udp")
    (Nat.repr port)

/-- `IpsetController::create_or_reset_ipset`: best-effort destroy, then
    create. -/
def create_or_reset_ipset (set_name : String) : M Unit := do
  ignoreErr (execute ["destroy", set_name])
  let _ ← execute ["create", set_name, "hash:ip", "family", "inet", "maxelem", "65536"]
  pure ()

/-- The loop body of `IpsetController::parse_ipset_list`: collect lines
    after a `Members:` marker that parse as u16. -/
def membersGo : Bool → List String → List Nat
  | _, [] => []
  | inSection, line :: rest =>
    if line = "Members:" then membersGo true rest
    else if inSection then
      match parseU16 (trimChars line.data) with
      | some p => p :: membersGo true rest
      | none => membersGo true rest
    else membersGo false rest

/-- Ascending insertion into a sorted list of naturals
    (`Vec::sort_unstable` on `u16` values). -/
def insertNat (a : Nat) : List Nat → List Nat
  | [] => [a]
  | b :: l => if a ≤ b then a :: b :: l else b :: insertNat a l

/-- Ascending sort of naturals. -/
def sortNat : List Nat → List Nat
  | [] => []
  | a :: l => insertNat a (sortNat l)

/-- `IpsetController::parse_ipset_list`. -/
def parse_ipset_list (output : String) : List Nat :=
  sortNat (membersGo false (rustLines output))

/-- Stable insertion by port number: an element is placed before the first
    strictly-later-inserted element with a key not smaller than its own
    (`Vec::sort_by_key` is a stable sort). -/
def insertLE (a : Nat × Protocol) : List (Nat × Protocol) → List (Nat × Protocol)
  | [] => [a]
  | b :: l => if a.1 ≤ b.1 then a :: b :: l else b :: insertLE a l

/-- Stable sort by port number (`ports.sort_by_key(|(port, _)| *port)`). -/
def sortPorts : List (Nat × Protocol) → List (Nat × Protocol)
  | [] => []
  | a :: l => insertLE a (sortPorts l)

/-- `IpsetController::list_ports`. -/
def list_ports : M (List (Nat × Protocol)) := do
  let tcpOut ← ifOkM (execute ["list", "ei-allowed-tcp-ports"])
  let udpOut ← ifOkM (execute ["list", "ei-allowed-udp-ports"])
  let tcpPorts := match tcpOut with
    | some out => (parse_ipset_list out).map fun p => (p, Protocol.TCP)
    | none => []
  let udpPorts := match udpOut with
    | some out => (parse_ipset_list out).map fun p => (p, Protocol.UDP)
    | none => []
  pure (sortPorts (tcpPorts ++ udpPorts))

end Ipset

/-! The chain backend controller, from `src/iptables.rs`.  The v4 and v6
    command builders are the fixed programs `iptables` and `ip6tables`. -/

namespace Iptables

/-- `IptablesController::execute_v4`. -/
def execute_v4 (args : List String) : M String := execCmd "iptables" args

/-- `IptablesController::execute_v6`. -/
def execute_v6 (args : List String) : M String := execCmd "ip6tables" args

/-- `IptablesController::execute_both`: v4 first, then v6; the v6 command is
    not attempted when the v4 command fails. -/
def execute_both (args : List String) : M Unit := do
  let _ ← execute_v4 args
  let _ ← execute_v6 args
  pure ()

/-- `IptablesController::create_or_reset_chain`.  Note that the creation
    step is chained with `?`, so its failure propagates. -/
def create_or_reset_chain (chain_name : String) : M Unit := do
  execute_both ["-N", chain_name]
  execute_both ["-F", chain_name]

/-- `IptablesController::add_chain_to_filter`. -/
def add_chain_to_filter (chain_name : String) : M Unit := do
  execute_both ["-A", "INPUT", "-j", chain_name]
  execute_both ["-A", "FORWARD", "-j", chain_name]

/-- `IptablesController::accept_loopback`. -/
def accept_loopback : M Unit := do
  execute_both ["-A", "INPUT", "-i", "lo", "-j", "ACCEPT"]
  execute_both ["-A", "FORWARD", "-i", "lo", "-j", "ACCEPT"]

/-- `IptablesController::init`. -/
def init : M Unit := do
  create_or_reset_chain "ei"
  add_chain_to_filter "ei"
  accept_loopback

/-- `IptablesController::add_chain_to_chain`: the removal of an existing
    reference is chained with `?`. -/
def add_chain_to_chain (source_chain target_chain : String) : M Unit := do
  execute_both ["-D", target_chain, "-j", source_chain]
  execute_both ["-A", target_chain, "-j", source_chain]

/-- `IptablesController::add_chain_to_chain_start`: best-effort removal,
    then insertion at position 1. -/
def add_chain_to_chain_start (source_chain target_chain : String) : M Unit := do
  ignoreErr (execute_both ["-D", target_chain, "-j", source_chain])
  execute_both ["-I", target_chain, "1", "-j", source_chain]

/-- `IptablesController::block_interface`. -/
def block_interface (interface : String) : M Unit :=
  execute_both ["-A", "ei", "-i", interface, "-j", "DROP"]

/-- `IptablesController::implement_docker_blacklist_rules`. -/
def implement_docker_blacklist_rules : M Unit :=
  execute_both ["-A", "ei-docker", "-m", "set", "--match-set", "ei-blacklist",
    "src", "-j", "DROP"]

/-- `IptablesController::add_ipset_rules_to_ports`. -/
def add_ipset_rules_to_ports : M Unit := do
  execute_both ["-A", "ei-ports", "-p", "tcp", "-m", "set", "--match-set",
    "ei-allowed-tcp-ports", "dst", "-j", "ACCEPT"]
  execute_both ["-A", "ei-ports", "-p", "udp", "-m", "set", "--match-set",
    "ei-allowed-udp-ports", "dst", "-j", "ACCEPT"]
  pure ()

/-- `IptablesController::implement_badtcp_rules`: one drop rule, then the
    `todo!` macro panics unconditionally. -/
def implement_badtcp_rules : M Unit := do
  execute_both ["-A", "ei", "-p", "tcp", "--tcp-flags", "ALL", "NONE",
    "-j", "DROP"]
  todoM "not yet implemented: add actual rules here"

/-- `IptablesController::configure_port_forwarding`. -/
def configure_port_forwarding : M Unit := do
  create_or_reset_chain "ei-ports"
  add_chain_to_chain "ei-ports" "ei"
  add_ipset_rules_to_ports

/-- `IptablesController::configure_badtcp`. -/
def configure_badtcp : M Unit := do
  create_or_reset_chain "ei-badtcp"
  add_chain_to_chain "ei-badtcp" "ei"
  implement_badtcp_rules

/-- `IptablesController::configure_docker_blacklist`. -/
def configure_docker_blacklist : M Unit := do
  create_or_reset_chain "ei-docker"
  add_chain_to_chain "ei-docker" "DOCKER-USER"
  implement_docker_blacklist_rules

/-- `IptablesController::configure_interface_blocking`. -/
def configure_interface_blocking : List String → M Unit
  | [] => pure ()
  | i :: rest => do
    block_interface i
    configure_interface_blocking rest

/-- `IptablesController::configure`. -/
def configure (config : Config) : M Unit := do
  if config.features.portforward then configure_port_forwarding else pure ()
  if config.features.block_badtcp then configure_badtcp else pure ()
  if config.docker then configure_docker_blacklist else pure ()
  configure_interface_blocking config.interfaces

/-- The whitelist `for_each` over rules: every port rule is written to the
    fixed whitelist port set with `.unwrap()`. -/
def whitelistPortAdds : List Rule → M Unit
  | [] => pure ()
  | Rule.Port n proto :: rest => do
    unwrapM (Ipset.add_to_whitelist n proto)
    whitelistPortAdds rest
  | _ :: rest => whitelistPortAdds rest

/-- The iterator feeding the whitelist accept-rule loop: each registered
    whitelist set name expands to its v4/v6 pair, then the two fixed
    whitelist port sets are chained. -/
def whitelistSetNames (sets : List String) : List String :=
  (sets.flatMap fun e => ["ei-" ++ e ++ "-ipv4", "ei-" ++ e ++ "-ipv6"]) ++
    ["ei-whitelist-tcp", "ei-whitelist-udp"]

/-- The whitelist accept-rule loop: one accept rule per set name, emitted to
    both families. -/
def whitelistAccepts : List String → M Unit
  | [] => pure ()
  | s :: rest => do
    execute_both ["-A", "ei-whitelist", "-m", "set", "--match-set", s,
      "dst", "-j", "ACCEPT"]
    whitelistAccepts rest

/-- `IptablesController::configure_whitelist_chain`. -/
def configure_whitelist_chain (rp : RuleParser) (st : IpsetSt) : M Unit := do
  create_or_reset_chain "ei-whitelist"
  add_chain_to_chain_start "ei-whitelist" "ei"
  whitelistPortAdds rp.whitelist_rules
  whitelistAccepts (whitelistSetNames st.whitelist_sets)

/-- The blacklist `for_each` over rules, with `.unwrap()`. -/
def blacklistPortAdds : List Rule → M Unit
  | [] => pure ()
  | Rule.Port n proto :: rest => do
    unwrapM (Ipset.add_to_blacklist n proto)
    blacklistPortAdds rest
  | _ :: rest => blacklistPortAdds rest

/-- The iterator feeding the blacklist drop-rule loop. -/
def blacklistSetNames (sets : List String) : List String :=
  (sets.flatMap fun e => ["ei-" ++ e ++ "-ipv4", "ei-" ++ e ++ "-ipv6"]) ++
    ["ei-blacklist-tcp", "ei-blacklist-udp"]

/-- The blacklist drop-rule loop: one drop rule per set name, emitted via
    `execute_v4` only. -/
def blacklistDrops : List String → M Unit
  | [] => pure ()
  | s :: rest => do
    let _ ← execute_v4 ["-A", "ei-blacklist", "-m", "set", "--match-set", s,
      "src", "-j", "DROP"]
    blacklistDrops rest

/-- `IptablesController::configure_blacklist_chain`. -/
def configure_blacklist_chain (rp : RuleParser) (st : IpsetSt) : M Unit := do
  create_or_reset_chain "ei-blacklist"
  add_chain_to_chain "ei-blacklist" "ei"
  blacklistPortAdds rp.blacklist_rules
  blacklistDrops (blacklistSetNames st.blacklist_sets)

/-- `IptablesController::configure_with_rules`. -/
def configure_with_rules (config : Config) (rp : RuleParser) (st : IpsetSt) :
    M Unit := do
  configure_whitelist_chain rp st
  configure_blacklist_chain rp st
  configure config

end Iptables

/-! List providers, the resolver and the fetch-and-populate pipeline, from
    `src/auto/resolver.rs`, `src/auto/cloudflare.rs`, `src/auto/iplist.rs`
    and `src/main.rs`. -/

/-- A resolved list provider: both the built-in Cloudflare list and a
    configured list are a name plus two fetch URLs. -/
structure Provider where
  name : String
  ipv4Url : String
  ipv6Url : String
deriving DecidableEq

/-- `CloudflareList::new`, the only registered built-in provider. -/
def cloudflareProvider : Provider :=
  ⟨"cloudflare", "https://www.cloudflare.com/ips-v4",
    "https://www.cloudflare.com/ips-v6"⟩

/-- `ConfigurableIpList::new`. -/
def configuredProvider (name : String) (cfg : IpListConfig) : Provider :=
  ⟨name, cfg.urls.ipv4, cfg.urls.ipv6⟩

/-- `IpList::ipv4_set_name`. -/
def ipv4SetName (p : Provider) : String := "ei-" ++ p.name ++ "-ipv4"

/-- `IpList::ipv6_set_name`. -/
def ipv6SetName (p : Provider) : String := "ei-" ++ p.name ++ "-ipv6"

/-- `IpListResolver::resolve`: built-ins take precedence; otherwise the
    inline config or the named configured source, if enabled. -/
def resolveRule (configs : List (String × IpListConfig)) (r : Rule) :
    Option Provider :=
  match r with
  | Rule.IpList name cfg =>
    if name = "cloudflare" then some cloudflareProvider
    else
      match (match cfg with
             | some c => some c
             | none => configs.lookup name) with
      | some c => if c.enabled then some (configuredProvider name c) else none
      | none => none
  | _ => none

/-- `IpListResolver::resolve_all`: unresolved rules filtered out, input
    order kept. -/
def resolve_all (configs : List (String × IpListConfig)) (rules : List Rule) :
    List Provider :=
  rules.filterMap (resolveRule configs)

/-- `IpListManager::load_from_config`: one provider per enabled configured
    list, in map enumeration order. -/
def load_from_config_lists (config : Config) : List Provider :=
  config.iplists.filterMap fun nc =>
    if nc.2.enabled then some (configuredProvider nc.1 nc.2) else none

/-- The provider list `load_and_configure` (src/main.rs) hands to
    `update_all`: the lists resolved from the IpList rules of both access
    lists, followed by every enabled configured list. -/
def loadProviders (config : Config) : List Provider :=
  resolve_all config.iplists (RuleParser.parse_config config).get_iplist_rules ++
    load_from_config_lists config

/-- The oracle for HTTP fetches: body text or network failure per URL. -/
def Fetch : Type := String → Except String String

/-- One HTTP fetch (`IpList::fetch_ipv4` / `fetch_ipv6`). -/
def fetchM (fetch : Fetch) (url : String) : M String := fun _ =>
  ([],
    match fetch url with
    | Except.ok s => Res.ok s
    | Except.error e => Res.err e)

/-- The per-family populate loop of `IpListManager::update_list`: every
    non-empty line becomes one member-add, failures propagate. -/
def addLines (set_name : String) : List String → M Unit
  | [] => pure ()
  | ip :: rest => do
    if ip = "" then pure () else Ipset.add_to_set set_name ip
    addLines set_name rest

/-- `IpListManager::update_list`. -/
def update_list (fetch : Fetch) (p : Provider) : M Unit := do
  Ipset.create_or_reset_ipset (ipv4SetName p)
  Ipset.create_or_reset_ipset (ipv6SetName p)
  let ipv4_ranges ← fetchM fetch p.ipv4Url
  addLines (ipv4SetName p) (rustLines ipv4_ranges)
  let ipv6_ranges ← fetchM fetch p.ipv6Url
  addLines (ipv6SetName p) (rustLines ipv6_ranges)

/-- `IpListManager::update_all`: sequential, fail-fast. -/
def update_all (fetch : Fetch) : List Provider → M Unit
  | [] => pure ()
  | p :: rest => do
    update_list fetch p
    update_all fetch rest

/-! A small semantic model of how one chain of the filtering backend reacts
    to the emitted commands, used to state head/tail linking claims:
    `-A` appends, `-I <chain> 1` inserts at the head, `-F` flushes, `-D`
    deletes the first matching rule. -/

/-- Effect of one command on the rule list of the named chain. -/
def applyChainCmd (chain : String) (rules : List (List String)) (c : Cmd) :
    List (List String) :=
  match c.args with
  | "-A" :: ch :: rest => if ch = chain then rules ++ [rest] else rules
  | "-I" :: ch :: pos :: rest =>
    if ch = chain then if pos = "1" then rest :: rules else rules else rules
  | "-F" :: ch :: _ => if ch = chain then [] else rules
  | "-D" :: ch :: rest => if ch = chain then rules.erase rest else rules
  | _ => rules

/-- Replay the v4 commands of a trace against one chain's rule list. -/
def simChain (chain : String) (start : List (List String)) (tr : List Cmd) :
    List (List String) :=
  (tr.filter fun c => c.prog == "iptables").foldl (applyChainCmd chain) start

/-! Shorthand for stating claims about emitted traces. -/

/-- A v4 (`iptables`) command. -/
def v4cmd (a : List String) : Cmd := ⟨"iptables", a⟩

/-- A v6 (`ip6tables`) command. -/
def v6cmd (a : List String) : Cmd := ⟨"ip6tables", a⟩

/-- An `ipset` command. -/
def ipsetCmd (a : List String) : Cmd := ⟨"ipset", a⟩

/-- The v4/v6 pair an `execute_both` call issues when both succeed. -/
def bothCmds (a : List String) : List Cmd := [v4cmd a, v6cmd a]

/-- The drop match rule the blacklist loop emits for one set name. -/
def dropArgs (s : String) : List String :=
  ["-A", "ei-blacklist", "-m", "set", "--match-set", s, "src", "-j", "DROP"]

/-- The accept match rule the whitelist loop emits for one set name. -/
def acceptArgs (s : String) : List String :=
  ["-A", "ei-whitelist", "-m", "set", "--match-set", s, "dst", "-j", "ACCEPT"]

/-- The malformed-TCP drop rule of `implement_badtcp_rules`. -/
def badtcpDropArgs : List String :=
  ["-A", "ei", "-p", "tcp", "--tcp-flags", "ALL", "NONE", "-j", "DROP"]

/-- The panic message of the embedded `todo!`. -/
def todoMsg : String := "not yet implemented: add actual rules here"

/-- The full command sequence `init` issues when every command succeeds:
    append-mode linking throughout, loopback accepts last. -/
def initTrace : List Cmd :=
  bothCmds ["-N", "ei"] ++ bothCmds ["-F", "ei"] ++
    bothCmds ["-A", "INPUT", "-j", "ei"] ++ bothCmds ["-A", "FORWARD", "-j", "ei"] ++
    bothCmds ["-A", "INPUT", "-i", "lo", "-j", "ACCEPT"] ++
    bothCmds ["-A", "FORWARD", "-i", "lo", "-j", "ACCEPT"]

/-- The commands targeting the root chain `ei` that the feature phase
    (`IptablesController::configure`) issues when every command succeeds:
    port-forward link, then either the badtcp link plus its single drop rule
    (after which the `todo!` panic stops the phase) or, with badtcp
    disabled, one interface drop pair per configured interface. -/
def featureEiCmds (cfg : Config) : List Cmd :=
  (if cfg.features.portforward then
    bothCmds ["-D", "ei", "-j", "ei-ports"] ++ bothCmds ["-A", "ei", "-j", "ei-ports"]
  else []) ++
  (if cfg.features.block_badtcp then
    bothCmds ["-D", "ei", "-j", "ei-badtcp"] ++ bothCmds ["-A", "ei", "-j", "ei-badtcp"] ++
      bothCmds badtcpDropArgs
  else
    cfg.interfaces.flatMap fun i => bothCmds ["-A", "ei", "-i", i, "-j", "DROP"])

/-- The commands targeting the root chain `ei` that the two access-list
    phases issue: whitelist unlink/insert-at-head first, then blacklist
    unlink/append. -/
def accessEiCmds : List Cmd :=
  bothCmds ["-D", "ei", "-j", "ei-whitelist"] ++
    bothCmds ["-I", "ei", "1", "-j", "ei-whitelist"] ++
    bothCmds ["-D", "ei", "-j", "ei-blacklist"] ++
    bothCmds ["-A", "ei", "-j", "ei-blacklist"]

/-- The full successful trace of `configure_port_forwarding`. -/
def pfTrace : List Cmd :=
  bothCmds ["-N", "ei-ports"] ++ bothCmds ["-F", "ei-ports"] ++
    bothCmds ["-D", "ei", "-j", "ei-ports"] ++ bothCmds ["-A", "ei", "-j", "ei-ports"] ++
    bothCmds ["-A", "ei-ports", "-p", "tcp", "-m", "set", "--match-set",
      "ei-allowed-tcp-ports", "dst", "-j", "ACCEPT"] ++
    bothCmds ["-A", "ei-ports", "-p", "udp", "-m", "set", "--match-set",
      "ei-allowed-udp-ports", "dst", "-j", "ACCEPT"]

/-- The trace of `configure_badtcp` up to the `todo!` panic. -/
def btTrace : List Cmd :=
  bothCmds ["-N", "ei-badtcp"] ++ bothCmds ["-F", "ei-badtcp"] ++
    bothCmds ["-D", "ei", "-j", "ei-badtcp"] ++ bothCmds ["-A", "ei", "-j", "ei-badtcp"] ++
    bothCmds badtcpDropArgs

/-- The ipset commands one `update_list` run issues when every command and
    fetch succeeds, `g` giving the body text per URL. -/
def ulTrace (g : String → String) (p : Provider) : List Cmd :=
  [ipsetCmd ["destroy", ipv4SetName p],
   ipsetCmd ["create", ipv4SetName p, "hash:ip", "family", "inet", "maxelem", "65536"],
   ipsetCmd ["destroy", ipv6SetName p],
   ipsetCmd ["create", ipv6SetName p, "hash:ip", "family", "inet", "maxelem", "65536"]] ++
  ((rustLines (g p.ipv4Url)).filter (fun ip => ip ≠ "")).map
    (fun ip => ipsetCmd ["add", ipv4SetName p, ip]) ++
  ((rustLines (g p.ipv6Url)).filter (fun ip => ip ≠ "")).map
    (fun ip => ipsetCmd ["add", ipv6SetName p, ip])

/-- The ordering the sorted port listing satisfies: ports ascending, and on
    a port tie never a UDP entry before a TCP entry (TCP members are
    enumerated first and the sort is stable). -/
def portsOrdered (a b : Nat × Protocol) : Prop :=
  a.1 < b.1 ∨ (a.1 = b.1 ∧ ¬(a.2 = Protocol.UDP ∧ b.2 = Protocol.TCP))

/-- Tie compatibility of the input enumeration: on a port tie, never a UDP
    entry enumerated before a TCP entry. -/
def tieCompatible (a b : Nat × Protocol) : Prop :=
  a.1 = b.1 → ¬(a.2 = Protocol.UDP ∧ b.2 = Protocol.TCP)

/-- The parsed TCP members `list_ports` reads from the oracle. -/
def tcpEntries (env : Env) : List (Nat × Protocol) :=
  match env (ipsetCmd ["list", "ei-allowed-tcp-ports"]) with
  | Except.ok out => (Ipset.parse_ipset_list out).map fun p => (p, Protocol.TCP)
  | Except.error _ => []

/-- The parsed UDP members `list_ports` reads from the oracle. -/
def udpEntries (env : Env) : List (Nat × Protocol) :=
  match env (ipsetCmd ["list", "ei-allowed-udp-ports"]) with
  | Except.ok out => (Ipset.parse_ipset_list out).map fun p => (p, Protocol.UDP)
  | Except.error _ => []

/-! Concrete oracles and configurations used to settle individual claims. -/

/-- An oracle on which only chain creation fails, as when the chain already
    exists. -/
def existsChainEnv : Env := fun c =>
  if c.args.headD "" = "-N" then Except.error "Chain already exists"
  else Except.ok ""

/-- An oracle on which every `ipset` command fails and every `iptables` /
    `ip6tables` command succeeds. -/
def addFailEnv : Env := fun c =>
  if c.prog = "ipset" then Except.error "boom" else Except.ok ""

/-- An oracle whose two fixed port sets enumerate 443 and 80 under TCP and
    53 under UDP. -/
def portsEnv : Env := fun c =>
  if c = ipsetCmd ["list", "ei-allowed-tcp-ports"] then
    Except.ok "Name: ei-allowed-tcp-ports\nMembers:\n443\n80"
  else if c = ipsetCmd ["list", "ei-allowed-udp-ports"] then
    Except.ok "Name: ei-allowed-udp-ports\nMembers:\n53"
  else Except.ok ""

/-- A configured, enabled list source named `foo`. -/
def fooCfg : IpListConfig := ⟨⟨"u4", "u6"⟩, true⟩

/-- A configuration whose whitelist references `iplist:foo` and whose
    configured list map enables `foo`. -/
def c5Config : Config :=
  ⟨⟨false, false⟩, ⟨true, [Rule.IpList "foo" none]⟩, ⟨false, []⟩, false, [],
    [("foo", fooCfg)]⟩

/-- The fixed whitelist port set per protocol. -/
def wlPortSet (p : Protocol) : String :=
  match p with
  | Protocol.TCP => "ei-whitelist-tcp"
  | Protocol.UDP => "ei-whitelist-udp"

/-- The fixed blacklist port set per protocol. -/
def blPortSet (p : Protocol) : String :=
  match p with
  | Protocol.TCP => "ei-blacklist-tcp"
  | Protocol.UDP => "ei-blacklist-udp"

/-- The ipset member-adds the whitelist rule loop issues when all succeed. -/
def portAddCmdsWl (rs : List Rule) : List Cmd :=
  rs.filterMap fun r =>
    match r with
    | Rule.Port n p => some (ipsetCmd ["add", wlPortSet p, Nat.repr n])
    | _ => none

/-- The ipset member-adds the blacklist rule loop issues when all succeed. -/
def portAddCmdsBl (rs : List Rule) : List Cmd :=
  rs.filterMap fun r =>
    match r with
    | Rule.Port n p => some (ipsetCmd ["add", blPortSet p, Nat.repr n])
    | _ => none

/-- The interface-blocking drop rules, one v4/v6 pair per interface. -/
def ifaceCmds (l : List String) : List Cmd :=
  l.flatMap fun i => bothCmds ["-A", "ei", "-i", i, "-j", "DROP"]

/-- The full successful trace of `configure_docker_blacklist`. -/
def dockerTrace : List Cmd :=
  bothCmds ["-N", "ei-docker"] ++ bothCmds ["-F", "ei-docker"] ++
    bothCmds ["-D", "DOCKER-USER", "-j", "ei-docker"] ++
    bothCmds ["-A", "DOCKER-USER", "-j", "ei-docker"] ++
    bothCmds ["-A", "ei-docker", "-m", "set", "--match-set", "ei-blacklist",
      "src", "-j", "DROP"]

/-- The trace of `IptablesController::configure` when every command
    succeeds: with badtcp enabled the phase stops at the `todo!` panic right
    after the badtcp drop rule, so the docker and interface parts are only
    reached with badtcp disabled. -/
def configTrace (cfg : Config) : List Cmd :=
  (if cfg.features.portforward then pfTrace else []) ++
  (if cfg.features.block_badtcp then btTrace
   else (if cfg.docker then dockerTrace else []) ++ ifaceCmds cfg.interfaces)

/-- The full successful trace of `configure_whitelist_chain`. -/
def wlTraceOf (rp : RuleParser) (st : IpsetSt) : List Cmd :=
  bothCmds ["-N", "ei-whitelist"] ++ bothCmds ["-F", "ei-whitelist"] ++
    bothCmds ["-D", "ei", "-j", "ei-whitelist"] ++
    bothCmds ["-I", "ei", "1", "-j", "ei-whitelist"] ++
    portAddCmdsWl rp.whitelist_rules ++
    (Iptables.whitelistSetNames st.whitelist_sets).flatMap
      (fun s => bothCmds (acceptArgs s))

/-- The full successful trace of `configure_blacklist_chain`: the drop
    rules are v4-only. -/
def blTraceOf (rp : RuleParser) (st : IpsetSt) : List Cmd :=
  bothCmds ["-N", "ei-blacklist"] ++ bothCmds ["-F", "ei-blacklist"] ++
    bothCmds ["-D", "ei", "-j", "ei-blacklist"] ++
    bothCmds ["-A", "ei", "-j", "ei-blacklist"] ++
    portAddCmdsBl rp.blacklist_rules ++
    (Iptables.blacklistSetNames st.blacklist_sets).map
      (fun s => v4cmd (dropArgs s))

/-- Whether a command manipulates the root chain `ei` (its target chain
    argument, in position 1, is `ei`). -/
def isRootChainCmd (c : Cmd) : Bool := c.args.getD 1 "" == "ei"

/-- The subsequence of a trace that manipulates the root chain. -/
def eiCmdsOf (tr : List Cmd) : List Cmd := tr.filter isRootChainCmd

/-- The rule list of the root chain `ei`, starting empty, after replaying a
    reconciliation: whitelist jump at the head, blacklist jump next, policy
    rules after. -/
def rootChainRules (cfg : Config) : List (List String) :=
  [["-j", "ei-whitelist"], ["-j", "ei-blacklist"]] ++
    (if cfg.features.portforward then [["-j", "ei-ports"]] else []) ++
    (if cfg.features.block_badtcp then
      [["-j", "ei-badtcp"], ["-p", "tcp", "--tcp-flags", "ALL", "NONE", "-j", "DROP"]]
    else cfg.interfaces.map fun i => ["-i", i, "-j", "DROP"])

/-- A fetch oracle on which every URL succeeds with body `g url`. -/
def okFetch (g : String → String) : Fetch := fun u => Except.ok (g u)

/-- Whether a command appends a rule to the deny chain `ei-blacklist`. -/
def isDenyRuleCmd (c : Cmd) : Bool :=
  c.args.headD "" == "-A" && c.args.getD 1 "" == "ei-blacklist"

/-- An oracle on which every `ipset` command fails with `e` and every other
    command succeeds. -/
def ipsetFailEnv (f : Cmd → String) (e : String) : Env := fun c =>
  if c.prog = "ipset" then Except.error e else Except.ok (f c)

/-- Two concrete providers for exercising the fetch pipeline. -/
def provA : Provider := ⟨"lista", "u4a", "u6a"⟩

/-- Second concrete provider; its IPv4 URL is the one `failFetch` rejects. -/
def provB : Provider := ⟨"listb", "u4b", "u6b"⟩

/-- A fetch oracle failing exactly on provider B's IPv4 URL. -/
def failFetch : Fetch := fun u =>
  if u = "u4b" then Except.error "network unreachable" else Except.ok "1.2.3.0/24"

/-- A configuration with the badtcp feature enabled. -/
def cfgBadtcpOn : Config := ⟨⟨true, true⟩, ⟨false, []⟩, ⟨false, []⟩, false, [], []⟩

/-- A configuration with the badtcp feature disabled. -/
def cfgBadtcpOff : Config :=
  ⟨⟨true, false⟩, ⟨false, []⟩, ⟨false, []⟩, true, ["eth1"], []⟩

/-- An empty rule parser state. -/
def rpEmpty : RuleParser := ⟨[], []⟩

/-- An empty tagged-set registry. -/
def stEmpty : IpsetSt := ⟨[], []⟩

/-! Basic laws of the embedding monad. -/

theorem run_bind {α β : Type} (m : M α) (k : α → M β) (env : Env) :
    (m >>= k) env = M.bind m k env := rfl

theorem run_pure {α : Type} (a : α) (env : Env) :
    (pure a : M α) env = ([], Res.ok a) := rfl

theorem bind_ok {α β : Type} {m : M α} {env : Env} {t : List Cmd} {a : α}
    (k : α → M β) (h : m env = (t, Res.ok a)) :
    M.bind m k env = (t ++ (k a env).1, (k a env).2) := by
  unfold M.bind
  rw [h]

theorem bind_err {α β : Type} {m : M α} {env : Env} {t : List Cmd} {e : String}
    (k : α → M β) (h : m env = (t, Res.err e)) :
    M.bind m k env = (t, Res.err e) := by
  unfold M.bind
  rw [h]

theorem bind_panicked {α β : Type} {m : M α} {env : Env} {t : List Cmd}
    {e : String} (k : α → M β) (h : m env = (t, Res.panicked e)) :
    M.bind m k env = (t, Res.panicked e) := by
  unfold M.bind
  rw [h]

/-- Every command a sequential composition issues is issued by one of the
    two parts (the continuation not depending on the first result). -/
theorem mem_bind_const {α β : Type} {m : M α} {k : M β} {env : Env} {c : Cmd}
    (h : c ∈ (M.bind m (fun _ => k) env).1) :
    c ∈ (m env).1 ∨ c ∈ (k env).1 := by
  rcases hm : m env with ⟨t, r⟩
  rcases hk : k env with ⟨t2, r2⟩
  cases r <;> simp_all [M.bind, List.mem_append]

/-- A sequential composition only succeeds when both parts do. -/
theorem bind_ok_of_ok {α β : Type} {m : M α} {k : α → M β} {env : Env}
    {b : β} {t : List Cmd} (h : M.bind m k env = (t, Res.ok b)) :
    ∃ a t1 t2, m env = (t1, Res.ok a) ∧ k a env = (t2, Res.ok b) := by
  rcases hm : m env with ⟨t1, r⟩
  cases r with
  | ok a =>
    rcases hk : k a env with ⟨t2, r2⟩
    simp only [M.bind, hm, hk, Prod.mk.injEq] at h
    obtain ⟨h1, h2⟩ := h
    subst h2
    exact ⟨a, t1, t2, rfl, hk⟩
  | err e => simp [M.bind, hm] at h
  | panicked e => simp [M.bind, hm] at h

theorem execute_both_okEnv (f : Cmd → String) (a : List String) :
    Iptables.execute_both a (okEnv f) = (bothCmds a, Res.ok ()) := rfl

theorem create_or_reset_chain_okEnv (f : Cmd → String) (n : String) :
    Iptables.create_or_reset_chain n (okEnv f) =
      (bothCmds ["-N", n] ++ bothCmds ["-F", n], Res.ok ()) := rfl

theorem add_chain_to_chain_okEnv (f : Cmd → String) (s t : String) :
    Iptables.add_chain_to_chain s t (okEnv f) =
      (bothCmds ["-D", t, "-j", s] ++ bothCmds ["-A", t, "-j", s], Res.ok ()) := rfl

theorem add_chain_to_chain_start_okEnv (f : Cmd → String) (s t : String) :
    Iptables.add_chain_to_chain_start s t (okEnv f) =
      (bothCmds ["-D", t, "-j", s] ++ bothCmds ["-I", t, "1", "-j", s], Res.ok ()) := rfl

theorem init_okEnv (f : Cmd → String) :
    Iptables.init (okEnv f) = (initTrace, Res.ok ()) := rfl

theorem add_ipset_rules_to_ports_okEnv (f : Cmd → String) :
    Iptables.add_ipset_rules_to_ports (okEnv f) =
      (bothCmds ["-A", "ei-ports", "-p", "tcp", "-m", "set", "--match-set",
        "ei-allowed-tcp-ports", "dst", "-j", "ACCEPT"] ++
       bothCmds ["-A", "ei-ports", "-p", "udp", "-m", "set", "--match-set",
        "ei-allowed-udp-ports", "dst", "-j", "ACCEPT"], Res.ok ()) := rfl

theorem configure_port_forwarding_okEnv (f : Cmd → String) :
    Iptables.configure_port_forwarding (okEnv f) = (pfTrace, Res.ok ()) := rfl

theorem implement_badtcp_rules_okEnv (f : Cmd → String) :
    Iptables.implement_badtcp_rules (okEnv f) =
      (bothCmds badtcpDropArgs, Res.panicked todoMsg) := rfl

theorem configure_badtcp_okEnv (f : Cmd → String) :
    Iptables.configure_badtcp (okEnv f) = (btTrace, Res.panicked todoMsg) := rfl

theorem configure_docker_blacklist_okEnv (f : Cmd → String) :
    Iptables.configure_docker_blacklist (okEnv f) = (dockerTrace, Res.ok ()) := rfl

theorem configure_interface_blocking_okEnv (f : Cmd → String) :
    ∀ l, Iptables.configure_interface_blocking l (okEnv f) =
      (ifaceCmds l, Res.ok ()) := by
  intro l
  induction l with
  | nil => rfl
  | cons i rest ih =>
    have h1 : Iptables.block_interface i (okEnv f) =
        (bothCmds ["-A", "ei", "-i", i, "-j", "DROP"], Res.ok ()) := rfl
    have hstep : Iptables.configure_interface_blocking (i :: rest) (okEnv f) =
        M.bind (Iptables.block_interface i)
          (fun _ => Iptables.configure_interface_blocking rest) (okEnv f) := rfl
    rw [hstep, bind_ok _ h1, ih]
    rfl

theorem configure_okEnv (f : Cmd → String) (cfg : Config) :
    Iptables.configure cfg (okEnv f) =
      (configTrace cfg,
        if cfg.features.block_badtcp then Res.panicked todoMsg else Res.ok ()) := by
  cases hpf : cfg.features.portforward <;> cases hbt : cfg.features.block_badtcp <;>
    cases hdk : cfg.docker <;>
      simp [Iptables.configure, hpf, hbt, hdk, configTrace, M.bind, run_pure, run_bind,
        configure_port_forwarding_okEnv, configure_badtcp_okEnv,
        configure_docker_blacklist_okEnv, configure_interface_blocking_okEnv]

theorem unwrap_wl_okEnv (f : Cmd → String) (n : Nat) (proto : Protocol) :
    unwrapM (Ipset.add_to_whitelist n proto) (okEnv f) =
      ([ipsetCmd ["add", wlPortSet proto, Nat.repr n]], Res.ok ()) := by
  cases proto <;> rfl

theorem unwrap_bl_okEnv (f : Cmd → String) (n : Nat) (proto : Protocol) :
    unwrapM (Ipset.add_to_blacklist n proto) (okEnv f) =
      ([ipsetCmd ["add", blPortSet proto, Nat.repr n]], Res.ok ()) := by
  cases proto <;> rfl

theorem whitelistPortAdds_okEnv (f : Cmd → String) :
    ∀ rs, Iptables.whitelistPortAdds rs (okEnv f) = (portAddCmdsWl rs, Res.ok ()) := by
  intro rs
  induction rs with
  | nil => rfl
  | cons r rest ih =>
    cases r with
    | Port n proto =>
      have hstep : Iptables.whitelistPortAdds (Rule.Port n proto :: rest) (okEnv f) =
          M.bind (unwrapM (Ipset.add_to_whitelist n proto))
            (fun _ => Iptables.whitelistPortAdds rest) (okEnv f) := rfl
      rw [hstep, bind_ok _ (unwrap_wl_okEnv f n proto), ih]
      rfl
    | IpList name c =>
      have hstep : Iptables.whitelistPortAdds (Rule.IpList name c :: rest) (okEnv f) =
          Iptables.whitelistPortAdds rest (okEnv f) := rfl
      rw [hstep, ih]
      rfl
    | IpSet name =>
      have hstep : Iptables.whitelistPortAdds (Rule.IpSet name :: rest) (okEnv f) =
          Iptables.whitelistPortAdds rest (okEnv f) := rfl
      rw [hstep, ih]
      rfl

theorem blacklistPortAdds_okEnv (f : Cmd → String) :
    ∀ rs, Iptables.blacklistPortAdds rs (okEnv f) = (portAddCmdsBl rs, Res.ok ()) := by
  intro rs
  induction rs with
  | nil => rfl
  | cons r rest ih =>
    cases r with
    | Port n proto =>
      have hstep : Iptables.blacklistPortAdds (Rule.Port n proto :: rest) (okEnv f) =
          M.bind (unwrapM (Ipset.add_to_blacklist n proto))
            (fun _ => Iptables.blacklistPortAdds rest) (okEnv f) := rfl
      rw [hstep, bind_ok _ (unwrap_bl_okEnv f n proto), ih]
      rfl
    | IpList name c =>
      have hstep : Iptables.blacklistPortAdds (Rule.IpList name c :: rest) (okEnv f) =
          Iptables.blacklistPortAdds rest (okEnv f) := rfl
      rw [hstep, ih]
      rfl
    | IpSet name =>
      have hstep : Iptables.blacklistPortAdds (Rule.IpSet name :: rest) (okEnv f) =
          Iptables.blacklistPortAdds rest (okEnv f) := rfl
      rw [hstep, ih]
      rfl

theorem whitelistAccepts_okEnv (f : Cmd → String) :
    ∀ l, Iptables.whitelistAccepts l (okEnv f) =
      (l.flatMap fun s => bothCmds (acceptArgs s), Res.ok ()) := by
  intro l
  induction l with
  | nil => rfl
  | cons s rest ih =>
    have hstep : Iptables.whitelistAccepts (s :: rest) (okEnv f) =
        M.bind (Iptables.execute_both (acceptArgs s))
          (fun _ => Iptables.whitelistAccepts rest) (okEnv f) := rfl
    rw [hstep, bind_ok _ (execute_both_okEnv f (acceptArgs s)), ih]
    rfl

theorem blacklistDrops_okEnv (f : Cmd → String) :
    ∀ l, Iptables.blacklistDrops l (okEnv f) =
      (l.map fun s => v4cmd (dropArgs s), Res.ok ()) := by
  intro l
  induction l with
  | nil => rfl
  | cons s rest ih =>
    have h1 : Iptables.execute_v4 (dropArgs s) (okEnv f) =
        ([v4cmd (dropArgs s)], Res.ok (f (v4cmd (dropArgs s)))) := rfl
    have hstep : Iptables.blacklistDrops (s :: rest) (okEnv f) =
        M.bind (Iptables.execute_v4 (dropArgs s))
          (fun _ => Iptables.blacklistDrops rest) (okEnv f) := rfl
    rw [hstep, bind_ok _ h1, ih]
    rfl

theorem configure_whitelist_chain_okEnv (f : Cmd → String) (rp : RuleParser)
    (st : IpsetSt) :
    Iptables.configure_whitelist_chain rp st (okEnv f) =
      (wlTraceOf rp st, Res.ok ()) := by
  have hstep : Iptables.configure_whitelist_chain rp st (okEnv f) =
      M.bind (Iptables.create_or_reset_chain "ei-whitelist")
        (fun _ =>
          M.bind (Iptables.add_chain_to_chain_start "ei-whitelist" "ei")
            (fun _ =>
              M.bind (Iptables.whitelistPortAdds rp.whitelist_rules)
                (fun _ => Iptables.whitelistAccepts
                  (Iptables.whitelistSetNames st.whitelist_sets))))
        (okEnv f) := rfl
  rw [hstep, bind_ok _ (create_or_reset_chain_okEnv f "ei-whitelist"),
    bind_ok _ (add_chain_to_chain_start_okEnv f "ei-whitelist" "ei"),
    bind_ok _ (whitelistPortAdds_okEnv f rp.whitelist_rules),
    whitelistAccepts_okEnv f _]
  simp [wlTraceOf]

theorem configure_blacklist_chain_okEnv (f : Cmd → String) (rp : RuleParser)
    (st : IpsetSt) :
    Iptables.configure_blacklist_chain rp st (okEnv f) =
      (blTraceOf rp st, Res.ok ()) := by
  have hstep : Iptables.configure_blacklist_chain rp st (okEnv f) =
      M.bind (Iptables.create_or_reset_chain "ei-blacklist")
        (fun _ =>
          M.bind (Iptables.add_chain_to_chain "ei-blacklist" "ei")
            (fun _ =>
              M.bind (Iptables.blacklistPortAdds rp.blacklist_rules)
                (fun _ => Iptables.blacklistDrops
                  (Iptables.blacklistSetNames st.blacklist_sets))))
        (okEnv f) := rfl
  rw [hstep, bind_ok _ (create_or_reset_chain_okEnv f "ei-blacklist"),
    bind_ok _ (add_chain_to_chain_okEnv f "ei-blacklist" "ei"),
    bind_ok _ (blacklistPortAdds_okEnv f rp.blacklist_rules),
    blacklistDrops_okEnv f _]
  simp [blTraceOf]

theorem configure_with_rules_okEnv (f : Cmd → String) (cfg : Config)
    (rp : RuleParser) (st : IpsetSt) :
    Iptables.configure_with_rules cfg rp st (okEnv f) =
      (wlTraceOf rp st ++ blTraceOf rp st ++ configTrace cfg,
        if cfg.features.block_badtcp then Res.panicked todoMsg else Res.ok ()) := by
  have hstep : Iptables.configure_with_rules cfg rp st (okEnv f) =
      M.bind (Iptables.configure_whitelist_chain rp st)
        (fun _ =>
          M.bind (Iptables.configure_blacklist_chain rp st)
            (fun _ => Iptables.configure cfg))
        (okEnv f) := rfl
  rw [hstep, bind_ok _ (configure_whitelist_chain_okEnv f rp st),
    bind_ok _ (configure_blacklist_chain_okEnv f rp st),
    configure_okEnv f cfg]
  simp

theorem add_to_set_okEnv (f : Cmd → String) (s v : String) :
    Ipset.add_to_set s v (okEnv f) = ([ipsetCmd ["add", s, v]], Res.ok ()) := rfl

theorem create_or_reset_ipset_okEnv (f : Cmd → String) (s : String) :
    Ipset.create_or_reset_ipset s (okEnv f) =
      ([ipsetCmd ["destroy", s],
        ipsetCmd ["create", s, "hash:ip", "family", "inet", "maxelem", "65536"]],
       Res.ok ()) := rfl

theorem addLines_okEnv (f : Cmd → String) (s : String) :
    ∀ lines, addLines s lines (okEnv f) =
      ((lines.filter fun ip => ip ≠ "").map fun ip => ipsetCmd ["add", s, ip],
       Res.ok ()) := by
  intro lines
  induction lines with
  | nil => rfl
  | cons ip rest ih =>
    by_cases hip : ip = "" <;>
      simp [addLines, hip, M.bind, run_pure, run_bind, add_to_set_okEnv, ih]

theorem update_list_okFetch (f : Cmd → String) (g : String → String)
    (p : Provider) :
    update_list (okFetch g) p (okEnv f) = (ulTrace g p, Res.ok ()) := by
  have hf4 : fetchM (okFetch g) p.ipv4Url (okEnv f) = ([], Res.ok (g p.ipv4Url)) := rfl
  have hf6 : fetchM (okFetch g) p.ipv6Url (okEnv f) = ([], Res.ok (g p.ipv6Url)) := rfl
  have hstep : update_list (okFetch g) p (okEnv f) =
      M.bind (Ipset.create_or_reset_ipset (ipv4SetName p))
        (fun _ =>
          M.bind (Ipset.create_or_reset_ipset (ipv6SetName p))
            (fun _ =>
              M.bind (fetchM (okFetch g) p.ipv4Url)
                (fun ipv4_ranges =>
                  M.bind (addLines (ipv4SetName p) (rustLines ipv4_ranges))
                    (fun _ =>
                      M.bind (fetchM (okFetch g) p.ipv6Url)
                        (fun ipv6_ranges =>
                          addLines (ipv6SetName p) (rustLines ipv6_ranges))))))
        (okEnv f) := rfl
  rw [hstep, bind_ok _ (create_or_reset_ipset_okEnv f (ipv4SetName p)),
    bind_ok _ (create_or_reset_ipset_okEnv f (ipv6SetName p)),
    bind_ok _ hf4]
  simp only
  rw [bind_ok _ (addLines_okEnv f (ipv4SetName p) (rustLines (g p.ipv4Url))),
    bind_ok _ hf6]
  simp only
  rw [addLines_okEnv f (ipv6SetName p) (rustLines (g p.ipv6Url))]
  simp [ulTrace]

theorem update_all_okFetch (f : Cmd → String) (g : String → String) :
    ∀ ps, update_all (okFetch g) ps (okEnv f) =
      (ps.flatMap (ulTrace g), Res.ok ()) := by
  intro ps
  induction ps with
  | nil => rfl
  | cons p rest ih =>
    have hstep : update_all (okFetch g) (p :: rest) (okEnv f) =
        M.bind (update_list (okFetch g) p)
          (fun _ => update_all (okFetch g) rest) (okEnv f) := rfl
    rw [hstep, bind_ok _ (update_list_okFetch f g p), ih]
    rfl

/-- Fail-fast decomposition of `update_all`: on an error it processed a
    prefix fully, failed on the next provider, and never touched the rest. -/
theorem update_all_err_split (fetch : Fetch) (env : Env) :
    ∀ (ps : List Provider) (e : String) (t : List Cmd),
      update_all fetch ps env = (t, Res.err e) →
      ∃ pre p post tp, ps = pre ++ p :: post ∧
        (∀ q ∈ pre, ∃ tq, update_list fetch q env = (tq, Res.ok ())) ∧
        update_list fetch p env = (tp, Res.err e) ∧
        t = pre.flatMap (fun q => (update_list fetch q env).1) ++ tp := by
  intro ps
  induction ps with
  | nil =>
    intro e t h
    simp [update_all, M.pure, run_pure] at h
  | cons p rest ih =>
    intro e t h
    have hstep : update_all fetch (p :: rest) env =
        M.bind (update_list fetch p) (fun _ => update_all fetch rest) env := rfl
    rw [hstep] at h
    rcases hp : update_list fetch p env with ⟨tp, rp⟩
    cases rp with
    | ok a =>
      cases a
      rw [bind_ok _ hp] at h
      rcases hrest : update_all fetch rest env with ⟨t2, r2⟩
      rw [hrest] at h
      obtain ⟨h1, h2⟩ := Prod.mk.injEq .. ▸ h
      simp only at h1 h2
      subst h2
      obtain ⟨pre, p2, post, tp2, hsplit, hpre, hfail, htr⟩ := ih e t2 hrest
      refine ⟨p :: pre, p2, post, tp2, by simp [hsplit], ?_, hfail, ?_⟩
      · intro q hq
        rcases List.mem_cons.mp hq with hq | hq
        · exact ⟨tp, by rw [hq]; exact hp⟩
        · exact hpre q hq
      · rw [← h1, htr]
        simp [hp]
    | err e2 =>
      rw [bind_err _ hp] at h
      obtain ⟨h1, h2⟩ := Prod.mk.injEq .. ▸ h
      have he : e2 = e := by simpa using h2
      refine ⟨[], p, rest, tp, rfl, by simp, ?_, by simp [h1]⟩
      rw [hp, he]
    | panicked e2 =>
      rw [bind_panicked _ hp] at h
      simp at h

theorem digitChar_isDigit : ∀ m, m < 10 → (Nat.digitChar m).isDigit = true := by decide

theorem chVal_digitChar : ∀ m, m < 10 → chVal (Nat.digitChar m) = m := by decide

theorem digitsVal_append_single (l : List Char) (c : Char) :
    digitsVal (l ++ [c]) = 10 * digitsVal l + chVal c := by
  simp [digitsVal, List.foldl_append]

theorem natToChars_all_digit (n : Nat) :
    (natToChars n).all Char.isDigit = true := by
  induction n using Nat.strong_induction_on with
  | _ n ih =>
    by_cases h : n < 10
    · rw [natToChars]
      simp [h, digitChar_isDigit n h]
    · rw [natToChars]
      simp only [h, dite_false]
      rw [List.all_append]
      simp [ih (n / 10) (Nat.div_lt_self (by omega) (by omega)),
        digitChar_isDigit (n % 10) (Nat.mod_lt n (by omega))]

theorem natToChars_ne_nil (n : Nat) : natToChars n ≠ [] := by
  rw [natToChars]
  by_cases h : n < 10 <;> simp [h]

theorem digitsVal_natToChars (n : Nat) : digitsVal (natToChars n) = n := by
  induction n using Nat.strong_induction_on with
  | _ n ih =>
    by_cases h : n < 10
    · rw [natToChars]
      simp [h, digitsVal, chVal_digitChar n h]
    · rw [natToChars]
      simp only [h, dite_false]
      rw [digitsVal_append_single, ih (n / 10) (Nat.div_lt_self (by omega) (by omega)),
        chVal_digitChar (n % 10) (Nat.mod_lt n (by omega))]
      omega

theorem stripPlus_all_digit {l : List Char} (hne : l ≠ [])
    (hall : l.all Char.isDigit = true) : stripPlus l = l := by
  cases l with
  | nil => simp at hne
  | cons c rest =>
    have hc : c.isDigit = true := by
      simp [List.all_cons] at hall
      exact hall.1
    have : c ≠ '+' := by
      intro hceq
      rw [hceq] at hc
      simp [Char.isDigit] at hc
    simp [stripPlus, this]

theorem parseU16_natToChars (n : Nat) :
    parseU16 (natToChars n) = if n ≤ 65535 then some n else none := by
  rw [parseU16]
  rw [stripPlus_all_digit (natToChars_ne_nil n) (natToChars_all_digit n)]
  simp [List.isEmpty_iff, natToChars_ne_nil n, natToChars_all_digit n,
    digitsVal_natToChars n]

theorem splitChar_not_mem {sep : Char} : ∀ {l : List Char}, sep ∉ l →
    splitChar sep l = [l] := by
  intro l
  induction l with
  | nil => intro _; rfl
  | cons c cs ih =>
    intro h
    have hc : ¬(c = sep) := fun hc => h (hc ▸ List.mem_cons_self c cs)
    have hcs : sep ∉ cs := fun hm => h (List.mem_cons_of_mem c hm)
    simp [splitChar, hc, ih hcs]

theorem splitChar_append {sep : Char} (b : List Char) :
    ∀ {a : List Char}, sep ∉ a →
      splitChar sep (a ++ sep :: b) = a :: splitChar sep b := by
  intro a
  induction a with
  | nil => intro _; simp [splitChar]
  | cons c a2 ih =>
    intro h
    have hc : ¬(c = sep) := fun hc => h (hc ▸ List.mem_cons_self c a2)
    have ha2 : sep ∉ a2 := fun hm => h (List.mem_cons_of_mem c hm)
    simp [splitChar, hc, ih ha2]

theorem slash_not_mem_natToChars (n : Nat) : '/' ∉ natToChars n := by
  intro hmem
  have hall := natToChars_all_digit n
  rw [List.all_eq_true] at hall
  have hd := hall _ hmem
  exact absurd hd (by decide)

theorem ruleFromStr_port_eval (n : Nat) (t : List Char) (ht : '/' ∉ t) :
    ruleFromStr (String.mk (natToChars n ++ '/' :: t)) =
      (match parseU16 (natToChars n) with
       | none => Except.error "Invalid port number"
       | some port =>
         match protocolFromChars t with
         | Except.error _ => Except.error "Invalid protocol"
         | Except.ok proto => Except.ok (Rule.Port port proto)) := by
  have hmem : '/' ∈ natToChars n ++ '/' :: t :=
    List.mem_append_right _ (List.mem_cons_self _ _)
  have hcontains : (natToChars n ++ '/' :: t).contains '/' = true := by
    simp [hmem]
  have hsplit : splitChar '/' (natToChars n ++ '/' :: t) = [natToChars n, t] := by
    rw [splitChar_append t (slash_not_mem_natToChars n), splitChar_not_mem ht]
  simp only [ruleFromStr, String.data]
  rw [if_pos hcontains, hsplit]
  simp

theorem mem_insertLE {x y : Nat × Protocol} :
    ∀ {l : List (Nat × Protocol)}, y ∈ Ipset.insertLE x l ↔ y = x ∨ y ∈ l := by
  intro l
  induction l with
  | nil => simp [Ipset.insertLE]
  | cons b rest ih =>
    by_cases h : x.1 ≤ b.1
    · simp [Ipset.insertLE, h]
    · simp [Ipset.insertLE, h, ih]
      tauto

theorem insertLE_perm (x : Nat × Protocol) :
    ∀ (l : List (Nat × Protocol)), (Ipset.insertLE x l).Perm (x :: l) := by
  intro l
  induction l with
  | nil => simp [Ipset.insertLE]
  | cons b rest ih =>
    by_cases h : x.1 ≤ b.1
    · simp [Ipset.insertLE, h]
    · simp only [Ipset.insertLE, h, if_false]
      exact (List.Perm.cons b ih).trans (List.Perm.swap x b rest)

theorem sortPorts_perm : ∀ (l : List (Nat × Protocol)),
    (Ipset.sortPorts l).Perm l := by
  intro l
  induction l with
  | nil => simp [Ipset.sortPorts]
  | cons a rest ih =>
    exact (insertLE_perm a (Ipset.sortPorts rest)).trans (List.Perm.cons a ih)

theorem insertLE_pairwise {x : Nat × Protocol} :
    ∀ {l : List (Nat × Protocol)}, l.Pairwise portsOrdered →
      (∀ y ∈ l, tieCompatible x y) →
      (Ipset.insertLE x l).Pairwise portsOrdered := by
  intro l
  induction l with
  | nil => intro _ _; simp [Ipset.insertLE, List.pairwise_singleton]
  | cons b rest ih =>
    intro hl hx
    rw [List.pairwise_cons] at hl
    obtain ⟨hb, hrest⟩ := hl
    by_cases h : x.1 ≤ b.1
    · simp only [Ipset.insertLE, h, if_true]
      rw [List.pairwise_cons]
      refine ⟨?_, List.pairwise_cons.mpr ⟨hb, hrest⟩⟩
      intro z hz
      rcases List.mem_cons.mp hz with hz | hz
      · subst hz
        rcases Nat.lt_or_ge x.1 z.1 with hlt | hge
        · exact Or.inl hlt
        · have hxz : x.1 = z.1 := Nat.le_antisymm h hge
          exact Or.inr ⟨hxz, hx z (List.mem_cons_self _ _) hxz⟩
      · have hbz := hb z hz
        have hbz1 : b.1 ≤ z.1 := by
          rcases hbz with hlt | ⟨heq, _⟩
          · omega
          · omega
        rcases Nat.lt_or_ge x.1 z.1 with hlt | hge
        · exact Or.inl hlt
        · have hxz : x.1 = z.1 := Nat.le_antisymm (Nat.le_trans h hbz1) hge
          exact Or.inr ⟨hxz, hx z (List.mem_cons_of_mem b hz) hxz⟩
    · simp only [Ipset.insertLE, h, if_false]
      rw [List.pairwise_cons]
      constructor
      · intro z hz
        rcases mem_insertLE.mp hz with hz | hz
        · subst hz
          exact Or.inl (by omega)
        · exact hb z hz
      · exact ih hrest fun y hy => hx y (List.mem_cons_of_mem b hy)

theorem sortPorts_pairwise : ∀ {l : List (Nat × Protocol)},
    l.Pairwise tieCompatible → (Ipset.sortPorts l).Pairwise portsOrdered := by
  intro l
  induction l with
  | nil => intro _; simp [Ipset.sortPorts]
  | cons a rest ih =>
    intro h
    rw [List.pairwise_cons] at h
    obtain ⟨ha, hrest⟩ := h
    refine insertLE_pairwise (ih hrest) ?_
    intro y hy
    exact ha y ((sortPorts_perm rest).mem_iff.mp hy)

theorem entries_tieCompatible (tcp udp : List Nat) :
    ((tcp.map fun p => (p, Protocol.TCP)) ++
      (udp.map fun p => (p, Protocol.UDP))).Pairwise tieCompatible := by
  rw [List.pairwise_append]
  refine ⟨?_, ?_, ?_⟩
  · rw [List.pairwise_map]
    exact List.pairwise_of_forall_mem_list fun a _ b _ => by simp [tieCompatible]
  · rw [List.pairwise_map]
    exact List.pairwise_of_forall_mem_list fun a _ b _ => by simp [tieCompatible]
  · intro a ha b hb
    rcases List.mem_map.mp ha with ⟨p, _, hpa⟩
    rcases List.mem_map.mp hb with ⟨q, _, hqb⟩
    subst hpa
    subst hqb
    simp [tieCompatible]

theorem tcpEntries_shape (env : Env) :
    ∃ ps : List Nat, tcpEntries env = List.map (fun p => (p, Protocol.TCP)) ps := by
  unfold tcpEntries
  cases env (ipsetCmd ["list", "ei-allowed-tcp-ports"]) with
  | ok out => exact ⟨Ipset.parse_ipset_list out, rfl⟩
  | error e => exact ⟨[], by simp⟩

theorem udpEntries_shape (env : Env) :
    ∃ ps : List Nat, udpEntries env = List.map (fun p => (p, Protocol.UDP)) ps := by
  unfold udpEntries
  cases env (ipsetCmd ["list", "ei-allowed-udp-ports"]) with
  | ok out => exact ⟨Ipset.parse_ipset_list out, rfl⟩
  | error e => exact ⟨[], by simp⟩

theorem list_ports_run (env : Env) :
    Ipset.list_ports env =
      ([ipsetCmd ["list", "ei-allowed-tcp-ports"],
        ipsetCmd ["list", "ei-allowed-udp-ports"]],
       Res.ok (Ipset.sortPorts (tcpEntries env ++ udpEntries env))) := by
  have hstep : Ipset.list_ports env =
      M.bind (ifOkM (Ipset.execute ["list", "ei-allowed-tcp-ports"]))
        (fun tcpOut =>
          M.bind (ifOkM (Ipset.execute ["list", "ei-allowed-udp-ports"]))
            (fun udpOut =>
              pure (Ipset.sortPorts
                ((match tcpOut with
                  | some out => (Ipset.parse_ipset_list out).map fun p => (p, Protocol.TCP)
                  | none => []) ++
                 (match udpOut with
                  | some out => (Ipset.parse_ipset_list out).map fun p => (p, Protocol.UDP)
                  | none => [])))))
        env := rfl
  rw [hstep]
  cases h4 : env ⟨"ipset", ["list", "ei-allowed-tcp-ports"]⟩ with
  | ok s4 =>
    cases h6 : env ⟨"ipset", ["list", "ei-allowed-udp-ports"]⟩ with
    | ok s6 =>
      simp [M.bind, M.pure, ifOkM, Ipset.execute, execCmd, ipsetCmd, h4, h6,
        run_pure, Pure.pure, tcpEntries, udpEntries]
    | error e6 =>
      simp [M.bind, M.pure, ifOkM, Ipset.execute, execCmd, ipsetCmd, h4, h6,
        run_pure, Pure.pure, tcpEntries, udpEntries]
  | error e4 =>
    cases h6 : env ⟨"ipset", ["list", "ei-allowed-udp-ports"]⟩ with
    | ok s6 =>
      simp [M.bind, M.pure, ifOkM, Ipset.execute, execCmd, ipsetCmd, h4, h6,
        run_pure, Pure.pure, tcpEntries, udpEntries]
    | error e6 =>
      simp [M.bind, M.pure, ifOkM, Ipset.execute, execCmd, ipsetCmd, h4, h6,
        run_pure, Pure.pure, tcpEntries, udpEntries]

theorem mem_portAddCmdsWl {c : Cmd} {rs : List Rule} (h : c ∈ portAddCmdsWl rs) :
    ∃ n p, c = ipsetCmd ["add", wlPortSet p, Nat.repr n] := by
  rcases List.mem_filterMap.mp h with ⟨r, _, hg⟩
  cases r with
  | Port n p => exact ⟨n, p, by simpa using hg.symm⟩
  | IpList name cfg => simp at hg
  | IpSet name => simp at hg

theorem mem_portAddCmdsBl {c : Cmd} {rs : List Rule} (h : c ∈ portAddCmdsBl rs) :
    ∃ n p, c = ipsetCmd ["add", blPortSet p, Nat.repr n] := by
  rcases List.mem_filterMap.mp h with ⟨r, _, hg⟩
  cases r with
  | Port n p => exact ⟨n, p, by simpa using hg.symm⟩
  | IpList name cfg => simp at hg
  | IpSet name => simp at hg

theorem portAddCmdsWl_filter_root (rs : List Rule) :
    (portAddCmdsWl rs).filter isRootChainCmd = [] := by
  rw [List.filter_eq_nil_iff]
  intro c hc
  rcases mem_portAddCmdsWl hc with ⟨n, p, rfl⟩
  cases p <;> simp [isRootChainCmd, ipsetCmd, wlPortSet]

theorem portAddCmdsBl_filter_root (rs : List Rule) :
    (portAddCmdsBl rs).filter isRootChainCmd = [] := by
  rw [List.filter_eq_nil_iff]
  intro c hc
  rcases mem_portAddCmdsBl hc with ⟨n, p, rfl⟩
  cases p <;> simp [isRootChainCmd, ipsetCmd, blPortSet]

theorem accepts_filter_root (L : List String) :
    ((L.flatMap fun s => bothCmds (acceptArgs s)).filter isRootChainCmd) = [] := by
  rw [List.filter_eq_nil_iff]
  intro c hc
  rcases List.mem_flatMap.mp hc with ⟨s, _, hm⟩
  rcases List.mem_cons.mp hm with h | h
  · subst h; simp [isRootChainCmd, acceptArgs, v4cmd]
  · rcases List.mem_cons.mp h with h | h
    · subst h; simp [isRootChainCmd, acceptArgs, v6cmd]
    · simp [bothCmds] at h

theorem drops_filter_root (L : List String) :
    ((L.map fun s => v4cmd (dropArgs s)).filter isRootChainCmd) = [] := by
  rw [List.filter_eq_nil_iff]
  intro c hc
  rcases List.mem_map.mp hc with ⟨s, _, rfl⟩
  simp [isRootChainCmd, dropArgs, v4cmd]

theorem ifaceCmds_filter_root (l : List String) :
    (ifaceCmds l).filter isRootChainCmd = ifaceCmds l := by
  rw [List.filter_eq_self]
  intro c hc
  rcases List.mem_flatMap.mp hc with ⟨i, _, hm⟩
  rcases List.mem_cons.mp hm with h | h
  · subst h; simp [isRootChainCmd, v4cmd]
  · rcases List.mem_cons.mp h with h | h
    · subst h; simp [isRootChainCmd, v6cmd]
    · simp [bothCmds] at h

theorem wlTraceOf_filter_root (rp : RuleParser) (st : IpsetSt) :
    eiCmdsOf (wlTraceOf rp st) =
      bothCmds ["-D", "ei", "-j", "ei-whitelist"] ++
        bothCmds ["-I", "ei", "1", "-j", "ei-whitelist"] := by
  unfold eiCmdsOf wlTraceOf
  simp [List.filter_append, portAddCmdsWl_filter_root, accepts_filter_root,
    bothCmds, v4cmd, v6cmd, isRootChainCmd, acceptArgs]
  intro a x hx h
  rcases h with rfl | rfl <;> simp

theorem blTraceOf_filter_root (rp : RuleParser) (st : IpsetSt) :
    eiCmdsOf (blTraceOf rp st) =
      bothCmds ["-D", "ei", "-j", "ei-blacklist"] ++
        bothCmds ["-A", "ei", "-j", "ei-blacklist"] := by
  unfold eiCmdsOf blTraceOf
  simp [List.filter_append, portAddCmdsBl_filter_root, drops_filter_root,
    bothCmds, v4cmd, v6cmd, isRootChainCmd, dropArgs]

theorem configTrace_filter_root (cfg : Config) :
    eiCmdsOf (configTrace cfg) = featureEiCmds cfg := by
  unfold eiCmdsOf configTrace featureEiCmds
  cases hpf : cfg.features.portforward <;> cases hbt : cfg.features.block_badtcp <;>
    cases hdk : cfg.docker <;>
      simp [List.filter_append, ifaceCmds_filter_root, pfTrace, btTrace, dockerTrace,
        bothCmds, v4cmd, v6cmd, isRootChainCmd, badtcpDropArgs, ifaceCmds] <;>
        (intro a x hx h
         rcases h with rfl | rfl <;> simp)

theorem simChain_append (ch : String) (start : List (List String))
    (t1 t2 : List Cmd) :
    simChain ch start (t1 ++ t2) = simChain ch (simChain ch start t1) t2 := by
  simp [simChain, List.filter_append, List.foldl_append]

theorem simChain_accepts (start : List (List String)) :
    ∀ L : List String,
      simChain "ei" start (L.flatMap fun s => bothCmds (acceptArgs s)) = start := by
  intro L
  induction L with
  | nil => rfl
  | cons s rest ih =>
    rw [List.flatMap_cons, simChain_append]
    have h1 : simChain "ei" start (bothCmds (acceptArgs s)) = start := rfl
    rw [h1, ih]

theorem simChain_drops (start : List (List String)) :
    ∀ L : List String,
      simChain "ei" start (L.map fun s => v4cmd (dropArgs s)) = start := by
  intro L
  induction L with
  | nil => rfl
  | cons s rest ih =>
    have hsplit : ((s :: rest).map fun s => v4cmd (dropArgs s)) =
        [v4cmd (dropArgs s)] ++ rest.map fun s => v4cmd (dropArgs s) := rfl
    rw [hsplit, simChain_append]
    have h1 : simChain "ei" start [v4cmd (dropArgs s)] = start := rfl
    rw [h1, ih]

theorem portAddCmdsWl_filter_prog (rs : List Rule) :
    (portAddCmdsWl rs).filter (fun c => c.prog == "iptables") = [] := by
  rw [List.filter_eq_nil_iff]
  intro c hc
  rcases mem_portAddCmdsWl hc with ⟨n, p, rfl⟩
  simp [ipsetCmd]

theorem portAddCmdsBl_filter_prog (rs : List Rule) :
    (portAddCmdsBl rs).filter (fun c => c.prog == "iptables") = [] := by
  rw [List.filter_eq_nil_iff]
  intro c hc
  rcases mem_portAddCmdsBl hc with ⟨n, p, rfl⟩
  simp [ipsetCmd]

theorem simChain_portAddsWl (start : List (List String)) (rs : List Rule) :
    simChain "ei" start (portAddCmdsWl rs) = start := by
  simp [simChain, portAddCmdsWl_filter_prog]

theorem simChain_portAddsBl (start : List (List String)) (rs : List Rule) :
    simChain "ei" start (portAddCmdsBl rs) = start := by
  simp [simChain, portAddCmdsBl_filter_prog]

theorem simChain_ifaces (start : List (List String)) :
    ∀ l : List String,
      simChain "ei" start (ifaceCmds l) =
        start ++ l.map fun i => ["-i", i, "-j", "DROP"] := by
  intro l
  induction l generalizing start with
  | nil => simp [ifaceCmds, simChain]
  | cons i rest ih =>
    have hsplit : ifaceCmds (i :: rest) =
        bothCmds ["-A", "ei", "-i", i, "-j", "DROP"] ++ ifaceCmds rest := rfl
    rw [hsplit, simChain_append]
    have h1 : simChain "ei" start (bothCmds ["-A", "ei", "-i", i, "-j", "DROP"]) =
        start ++ [["-i", i, "-j", "DROP"]] := rfl
    rw [h1, ih]
    simp

theorem simChain_wlTrace (start : List (List String)) (rp : RuleParser)
    (st : IpsetSt) :
    simChain "ei" start (wlTraceOf rp st) =
      ["-j", "ei-whitelist"] :: start.erase ["-j", "ei-whitelist"] := by
  unfold wlTraceOf
  rw [simChain_append, simChain_append, simChain_append, simChain_append,
    simChain_append]
  have h1 : simChain "ei" start (bothCmds ["-N", "ei-whitelist"]) = start := rfl
  have h2 : ∀ s, simChain "ei" s (bothCmds ["-F", "ei-whitelist"]) = s := fun _ => rfl
  have h3 : ∀ s : List (List String),
      simChain "ei" s (bothCmds ["-D", "ei", "-j", "ei-whitelist"]) =
        s.erase ["-j", "ei-whitelist"] := fun _ => rfl
  have h4 : ∀ s : List (List String),
      simChain "ei" s (bothCmds ["-I", "ei", "1", "-j", "ei-whitelist"]) =
        ["-j", "ei-whitelist"] :: s := fun _ => rfl
  rw [h1, h2, h3, h4, simChain_portAddsWl, simChain_accepts]

theorem simChain_blTrace (start : List (List String)) (rp : RuleParser)
    (st : IpsetSt) :
    simChain "ei" start (blTraceOf rp st) =
      start.erase ["-j", "ei-blacklist"] ++ [["-j", "ei-blacklist"]] := by
  unfold blTraceOf
  rw [simChain_append, simChain_append, simChain_append, simChain_append,
    simChain_append]
  have h1 : simChain "ei" start (bothCmds ["-N", "ei-blacklist"]) = start := rfl
  have h2 : ∀ s, simChain "ei" s (bothCmds ["-F", "ei-blacklist"]) = s := fun _ => rfl
  have h3 : ∀ s : List (List String),
      simChain "ei" s (bothCmds ["-D", "ei", "-j", "ei-blacklist"]) =
        s.erase ["-j", "ei-blacklist"] := fun _ => rfl
  have h4 : ∀ s : List (List String),
      simChain "ei" s (bothCmds ["-A", "ei", "-j", "ei-blacklist"]) =
        s ++ [["-j", "ei-blacklist"]] := fun _ => rfl
  rw [h1, h2, h3, h4, simChain_portAddsBl, simChain_drops]

theorem simChain_configTrace (cfg : Config) :
    simChain "ei" [["-j", "ei-whitelist"], ["-j", "ei-blacklist"]]
        (configTrace cfg) =
      rootChainRules cfg := by
  unfold configTrace rootChainRules
  cases hpf : cfg.features.portforward <;> cases hbt : cfg.features.block_badtcp <;>
    cases hdk : cfg.docker <;>
      simp [simChain_append, pfTrace, btTrace, dockerTrace, simChain_ifaces,
        simChain, applyChainCmd, bothCmds, v4cmd, v6cmd, badtcpDropArgs] <;>
        exact simChain_ifaces _ _

theorem mem_execute_both {a : List String} {env : Env} {c : Cmd}
    (h : c ∈ (Iptables.execute_both a env).1) : c.args = a := by
  have hstep : Iptables.execute_both a env =
      M.bind (Iptables.execute_v4 a)
        (fun _ => M.bind (Iptables.execute_v6 a) (fun _ => pure ())) env := rfl
  rw [hstep] at h
  rcases mem_bind_const h with h1 | h1
  · rcases List.mem_singleton.mp h1 with rfl
    rfl
  · rcases mem_bind_const h1 with h2 | h2
    · rcases List.mem_singleton.mp h2 with rfl
      rfl
    · simp [run_pure] at h2

theorem mem_create_or_reset_chain {n : String} {env : Env} {c : Cmd}
    (h : c ∈ (Iptables.create_or_reset_chain n env).1) :
    c.args = ["-N", n] ∨ c.args = ["-F", n] := by
  have hstep : Iptables.create_or_reset_chain n env =
      M.bind (Iptables.execute_both ["-N", n])
        (fun _ => Iptables.execute_both ["-F", n]) env := rfl
  rw [hstep] at h
  rcases mem_bind_const h with h1 | h1
  · exact Or.inl (mem_execute_both h1)
  · exact Or.inr (mem_execute_both h1)

theorem mem_add_chain_to_chain {s t : String} {env : Env} {c : Cmd}
    (h : c ∈ (Iptables.add_chain_to_chain s t env).1) :
    c.args = ["-D", t, "-j", s] ∨ c.args = ["-A", t, "-j", s] := by
  have hstep : Iptables.add_chain_to_chain s t env =
      M.bind (Iptables.execute_both ["-D", t, "-j", s])
        (fun _ => Iptables.execute_both ["-A", t, "-j", s]) env := rfl
  rw [hstep] at h
  rcases mem_bind_const h with h1 | h1
  · exact Or.inl (mem_execute_both h1)
  · exact Or.inr (mem_execute_both h1)

theorem mem_add_ipset_rules_to_ports {env : Env} {c : Cmd}
    (h : c ∈ (Iptables.add_ipset_rules_to_ports env).1) :
    c.args = ["-A", "ei-ports", "-p", "tcp", "-m", "set", "--match-set",
      "ei-allowed-tcp-ports", "dst", "-j", "ACCEPT"] ∨
    c.args = ["-A", "ei-ports", "-p", "udp", "-m", "set", "--match-set",
      "ei-allowed-udp-ports", "dst", "-j", "ACCEPT"] := by
  have hstep : Iptables.add_ipset_rules_to_ports env =
      M.bind (Iptables.execute_both ["-A", "ei-ports", "-p", "tcp", "-m", "set",
          "--match-set", "ei-allowed-tcp-ports", "dst", "-j", "ACCEPT"])
        (fun _ =>
          M.bind (Iptables.execute_both ["-A", "ei-ports", "-p", "udp", "-m", "set",
              "--match-set", "ei-allowed-udp-ports", "dst", "-j", "ACCEPT"])
            (fun _ => pure ())) env := rfl
  rw [hstep] at h
  rcases mem_bind_const h with h1 | h1
  · exact Or.inl (mem_execute_both h1)
  · rcases mem_bind_const h1 with h2 | h2
    · exact Or.inr (mem_execute_both h2)
    · simp [run_pure] at h2

theorem mem_configure_port_forwarding {env : Env} {c : Cmd}
    (h : c ∈ (Iptables.configure_port_forwarding env).1) :
    c.args = ["-N", "ei-ports"] ∨ c.args = ["-F", "ei-ports"] ∨
    c.args = ["-D", "ei", "-j", "ei-ports"] ∨
    c.args = ["-A", "ei", "-j", "ei-ports"] ∨
    c.args = ["-A", "ei-ports", "-p", "tcp", "-m", "set", "--match-set",
      "ei-allowed-tcp-ports", "dst", "-j", "ACCEPT"] ∨
    c.args = ["-A", "ei-ports", "-p", "udp", "-m", "set", "--match-set",
      "ei-allowed-udp-ports", "dst", "-j", "ACCEPT"] := by
  have hstep : Iptables.configure_port_forwarding env =
      M.bind (Iptables.create_or_reset_chain "ei-ports")
        (fun _ =>
          M.bind (Iptables.add_chain_to_chain "ei-ports" "ei")
            (fun _ => Iptables.add_ipset_rules_to_ports)) env := rfl
  rw [hstep] at h
  rcases mem_bind_const h with h1 | h1
  · rcases mem_create_or_reset_chain h1 with h2 | h2 <;> tauto
  · rcases mem_bind_const h1 with h2 | h2
    · rcases mem_add_chain_to_chain h2 with h3 | h3 <;> tauto
    · rcases mem_add_ipset_rules_to_ports h2 with h3 | h3 <;> tauto

theorem mem_configure_docker_blacklist {env : Env} {c : Cmd}
    (h : c ∈ (Iptables.configure_docker_blacklist env).1) :
    c.args = ["-N", "ei-docker"] ∨ c.args = ["-F", "ei-docker"] ∨
    c.args = ["-D", "DOCKER-USER", "-j", "ei-docker"] ∨
    c.args = ["-A", "DOCKER-USER", "-j", "ei-docker"] ∨
    c.args = ["-A", "ei-docker", "-m", "set", "--match-set", "ei-blacklist",
      "src", "-j", "DROP"] := by
  have hstep : Iptables.configure_docker_blacklist env =
      M.bind (Iptables.create_or_reset_chain "ei-docker")
        (fun _ =>
          M.bind (Iptables.add_chain_to_chain "ei-docker" "DOCKER-USER")
            (fun _ => Iptables.implement_docker_blacklist_rules)) env := rfl
  rw [hstep] at h
  rcases mem_bind_const h with h1 | h1
  · rcases mem_create_or_reset_chain h1 with h2 | h2 <;> tauto
  · rcases mem_bind_const h1 with h2 | h2
    · rcases mem_add_chain_to_chain h2 with h3 | h3 <;> tauto
    · exact Or.inr (Or.inr (Or.inr (Or.inr (mem_execute_both h2))))

theorem mem_configure_interface_blocking {env : Env} {c : Cmd} :
    ∀ {l : List String}, c ∈ (Iptables.configure_interface_blocking l env).1 →
      ∃ i ∈ l, c.args = ["-A", "ei", "-i", i, "-j", "DROP"] := by
  intro l
  induction l with
  | nil => intro h; simp [Iptables.configure_interface_blocking, run_pure, M.pure] at h
  | cons i rest ih =>
    intro h
    have hstep : Iptables.configure_interface_blocking (i :: rest) env =
        M.bind (Iptables.block_interface i)
          (fun _ => Iptables.configure_interface_blocking rest) env := rfl
    rw [hstep] at h
    rcases mem_bind_const h with h1 | h1
    · exact ⟨i, List.mem_cons_self _ _, mem_execute_both h1⟩
    · rcases ih h1 with ⟨j, hj, hargs⟩
      exact ⟨j, List.mem_cons_of_mem _ hj, hargs⟩

theorem mem_configure_no_badtcp {cfg : Config} {env : Env} {c : Cmd}
    (hbt : cfg.features.block_badtcp = false)
    (h : c ∈ (Iptables.configure cfg env).1) :
    c.args ≠ ["-N", "ei-badtcp"] ∧ c.args ≠ ["-F", "ei-badtcp"] ∧
    c.args ≠ ["-D", "ei", "-j", "ei-badtcp"] ∧
    c.args ≠ ["-A", "ei", "-j", "ei-badtcp"] ∧ c.args ≠ badtcpDropArgs := by
  have hpick : (c ∈ (Iptables.configure_port_forwarding env).1 ∨
      c ∈ (Iptables.configure_docker_blacklist env).1 ∨
      c ∈ (Iptables.configure_interface_blocking cfg.interfaces env).1) := by
    by_cases hpf : cfg.features.portforward = true <;>
      by_cases hdk : cfg.docker = true <;>
        simp only [Iptables.configure, hpf, hdk, hbt, if_true, if_false,
          Bool.false_eq_true, ite_true, ite_false, run_bind] at h
    · rcases mem_bind_const h with h1 | h1
      · exact Or.inl h1
      · rcases mem_bind_const h1 with h2 | h2
        · simp [run_pure, M.pure] at h2
        · rcases mem_bind_const h2 with h3 | h3
          · exact Or.inr (Or.inl h3)
          · exact Or.inr (Or.inr h3)
    · rcases mem_bind_const h with h1 | h1
      · exact Or.inl h1
      · rcases mem_bind_const h1 with h2 | h2
        · simp [run_pure, M.pure] at h2
        · rcases mem_bind_const h2 with h3 | h3
          · simp [run_pure, M.pure] at h3
          · exact Or.inr (Or.inr h3)
    · rcases mem_bind_const h with h1 | h1
      · simp [run_pure, M.pure] at h1
      · rcases mem_bind_const h1 with h2 | h2
        · simp [run_pure, M.pure] at h2
        · rcases mem_bind_const h2 with h3 | h3
          · exact Or.inr (Or.inl h3)
          · exact Or.inr (Or.inr h3)
    · rcases mem_bind_const h with h1 | h1
      · simp [run_pure, M.pure] at h1
      · rcases mem_bind_const h1 with h2 | h2
        · simp [run_pure, M.pure] at h2
        · rcases mem_bind_const h2 with h3 | h3
          · simp [run_pure, M.pure] at h3
          · exact Or.inr (Or.inr h3)
  rcases hpick with hp | hp | hp
  · rcases mem_configure_port_forwarding hp with h1 | h1 | h1 | h1 | h1 | h1 <;>
      rw [h1] <;> simp [badtcpDropArgs]
  · rcases mem_configure_docker_blacklist hp with h1 | h1 | h1 | h1 | h1 <;>
      rw [h1] <;> simp [badtcpDropArgs]
  · rcases mem_configure_interface_blocking hp with ⟨i, _, h1⟩
    rw [h1]
    simp [badtcpDropArgs]

theorem pair_of_res_ok {α : Type} (m : M α) (env : Env) (b : α)
    (h : (m env).2 = Res.ok b) : m env = ((m env).1, Res.ok b) := by
  rw [← h]

theorem implement_badtcp_never_ok (env : Env) :
    (Iptables.implement_badtcp_rules env).2 ≠ Res.ok () := by
  intro hok
  have hstep : Iptables.implement_badtcp_rules env =
      M.bind (Iptables.execute_both badtcpDropArgs) (fun _ => todoM todoMsg) env := rfl
  rw [hstep] at hok
  obtain ⟨a, t1, t2, h1, h2⟩ := bind_ok_of_ok (pair_of_res_ok _ env () hok)
  have : todoM todoMsg env = ([], Res.panicked todoMsg) := rfl
  rw [this] at h2
  simp at h2

theorem configure_badtcp_never_ok (env : Env) :
    (Iptables.configure_badtcp env).2 ≠ Res.ok () := by
  intro hok
  have hstep : Iptables.configure_badtcp env =
      M.bind (Iptables.create_or_reset_chain "ei-badtcp")
        (fun _ =>
          M.bind (Iptables.add_chain_to_chain "ei-badtcp" "ei")
            (fun _ => Iptables.implement_badtcp_rules)) env := rfl
  rw [hstep] at hok
  obtain ⟨a, t1, t2, h1, h2⟩ := bind_ok_of_ok (pair_of_res_ok _ env () hok)
  obtain ⟨a2, t3, t4, h3, h4⟩ := bind_ok_of_ok h2
  exact implement_badtcp_never_ok env (by rw [h4])

theorem configure_never_ok_of_badtcp {cfg : Config} (env : Env)
    (hbt : cfg.features.block_badtcp = true) :
    (Iptables.configure cfg env).2 ≠ Res.ok () := by
  intro hok
  by_cases hpf : cfg.features.portforward = true <;>
    simp only [Iptables.configure, hpf, hbt, if_true, if_false,
      Bool.false_eq_true, ite_true, ite_false, run_bind] at hok
  · obtain ⟨a, t1, t2, h1, h2⟩ := bind_ok_of_ok (pair_of_res_ok _ env () hok)
    obtain ⟨a2, t3, t4, h3, h4⟩ := bind_ok_of_ok h2
    exact configure_badtcp_never_ok env (by rw [h3])
  · obtain ⟨a, t1, t2, h1, h2⟩ := bind_ok_of_ok (pair_of_res_ok _ env () hok)
    obtain ⟨a2, t3, t4, h3, h4⟩ := bind_ok_of_ok h2
    exact configure_badtcp_never_ok env (by rw [h3])

theorem configure_with_rules_never_ok_of_badtcp {cfg : Config}
    (rp : RuleParser) (st : IpsetSt) (env : Env)
    (hbt : cfg.features.block_badtcp = true) :
    (Iptables.configure_with_rules cfg rp st env).2 ≠ Res.ok () := by
  intro hok
  have hstep : Iptables.configure_with_rules cfg rp st env =
      M.bind (Iptables.configure_whitelist_chain rp st)
        (fun _ =>
          M.bind (Iptables.configure_blacklist_chain rp st)
            (fun _ => Iptables.configure cfg)) env := rfl
  rw [hstep] at hok
  obtain ⟨a, t1, t2, h1, h2⟩ := bind_ok_of_ok (pair_of_res_ok _ env () hok)
  obtain ⟨a2, t3, t4, h3, h4⟩ := bind_ok_of_ok h2
  exact configure_never_ok_of_badtcp env hbt (by rw [h4])

theorem blTraceOf_filter_deny (rp : RuleParser) (st : IpsetSt) :
    (blTraceOf rp st).filter isDenyRuleCmd =
      (Iptables.blacklistSetNames st.blacklist_sets).map
        (fun s => v4cmd (dropArgs s)) := by
  unfold blTraceOf
  rw [List.filter_append, List.filter_append, List.filter_append,
    List.filter_append, List.filter_append]
  have h1 : (portAddCmdsBl rp.blacklist_rules).filter isDenyRuleCmd = [] := by
    rw [List.filter_eq_nil_iff]
    intro c hc
    rcases mem_portAddCmdsBl hc with ⟨n, p, rfl⟩
    simp [isDenyRuleCmd, ipsetCmd]
  have h2 : ((Iptables.blacklistSetNames st.blacklist_sets).map
      (fun s => v4cmd (dropArgs s))).filter isDenyRuleCmd =
      (Iptables.blacklistSetNames st.blacklist_sets).map
        (fun s => v4cmd (dropArgs s)) := by
    rw [List.filter_eq_self]
    intro c hc
    rcases List.mem_map.mp hc with ⟨s, _, rfl⟩
    simp [isDenyRuleCmd, dropArgs, v4cmd]
  rw [h1, h2]
  simp [bothCmds, v4cmd, v6cmd, isDenyRuleCmd]

theorem blTraceOf_filter_v6_deny (rp : RuleParser) (st : IpsetSt) :
    (blTraceOf rp st).filter
      (fun c => c.prog == "ip6tables" && isDenyRuleCmd c) = [] := by
  unfold blTraceOf
  rw [List.filter_eq_nil_iff]
  intro c hc
  simp only [List.mem_append] at hc
  rcases hc with ((((hc | hc) | hc) | hc) | hc) | hc
  · simp only [bothCmds, List.mem_cons, List.not_mem_nil, or_false] at hc
    rcases hc with rfl | rfl <;> simp [isDenyRuleCmd, v4cmd, v6cmd]
  · simp only [bothCmds, List.mem_cons, List.not_mem_nil, or_false] at hc
    rcases hc with rfl | rfl <;> simp [isDenyRuleCmd, v4cmd, v6cmd]
  · simp only [bothCmds, List.mem_cons, List.not_mem_nil, or_false] at hc
    rcases hc with rfl | rfl <;> simp [isDenyRuleCmd, v4cmd, v6cmd]
  · simp only [bothCmds, List.mem_cons, List.not_mem_nil, or_false] at hc
    rcases hc with rfl | rfl <;> simp [isDenyRuleCmd, v4cmd, v6cmd]
  · rcases mem_portAddCmdsBl hc with ⟨n, p, rfl⟩
    simp [ipsetCmd]
  · rcases List.mem_map.mp hc with ⟨s, _, rfl⟩
    simp [v4cmd]

theorem whitelistPortAdds_ipsetFail (f : Cmd → String) (e : String) :
    ∀ rs, (∃ n p, Rule.Port n p ∈ rs) →
      (Iptables.whitelistPortAdds rs (ipsetFailEnv f e)).2 = Res.panicked e := by
  intro rs
  induction rs with
  | nil => rintro ⟨n, p, h⟩; simp at h
  | cons r rest ih =>
    rintro ⟨n, p, h⟩
    cases r with
    | Port n2 p2 =>
      have h1 : unwrapM (Ipset.add_to_whitelist n2 p2) (ipsetFailEnv f e) =
          ([ipsetCmd ["add", wlPortSet p2, Nat.repr n2]], Res.panicked e) := by
        cases p2 <;> rfl
      have hstep : Iptables.whitelistPortAdds (Rule.Port n2 p2 :: rest) (ipsetFailEnv f e) =
          M.bind (unwrapM (Ipset.add_to_whitelist n2 p2))
            (fun _ => Iptables.whitelistPortAdds rest) (ipsetFailEnv f e) := rfl
      rw [hstep, bind_panicked _ h1]
    | IpList name cfg =>
      have hstep : Iptables.whitelistPortAdds (Rule.IpList name cfg :: rest) (ipsetFailEnv f e) =
          Iptables.whitelistPortAdds rest (ipsetFailEnv f e) := rfl
      rw [hstep]
      refine ih ⟨n, p, ?_⟩
      rcases List.mem_cons.mp h with h | h
      · simp at h
      · exact h
    | IpSet name =>
      have hstep : Iptables.whitelistPortAdds (Rule.IpSet name :: rest) (ipsetFailEnv f e) =
          Iptables.whitelistPortAdds rest (ipsetFailEnv f e) := rfl
      rw [hstep]
      refine ih ⟨n, p, ?_⟩
      rcases List.mem_cons.mp h with h | h
      · simp at h
      · exact h

theorem blacklistPortAdds_ipsetFail (f : Cmd → String) (e : String) :
    ∀ rs, (∃ n p, Rule.Port n p ∈ rs) →
      (Iptables.blacklistPortAdds rs (ipsetFailEnv f e)).2 = Res.panicked e := by
  intro rs
  induction rs with
  | nil => rintro ⟨n, p, h⟩; simp at h
  | cons r rest ih =>
    rintro ⟨n, p, h⟩
    cases r with
    | Port n2 p2 =>
      have h1 : unwrapM (Ipset.add_to_blacklist n2 p2) (ipsetFailEnv f e) =
          ([ipsetCmd ["add", blPortSet p2, Nat.repr n2]], Res.panicked e) := by
        cases p2 <;> rfl
      have hstep : Iptables.blacklistPortAdds (Rule.Port n2 p2 :: rest) (ipsetFailEnv f e) =
          M.bind (unwrapM (Ipset.add_to_blacklist n2 p2))
            (fun _ => Iptables.blacklistPortAdds rest) (ipsetFailEnv f e) := rfl
      rw [hstep, bind_panicked _ h1]
    | IpList name cfg =>
      have hstep : Iptables.blacklistPortAdds (Rule.IpList name cfg :: rest) (ipsetFailEnv f e) =
          Iptables.blacklistPortAdds rest (ipsetFailEnv f e) := rfl
      rw [hstep]
      refine ih ⟨n, p, ?_⟩
      rcases List.mem_cons.mp h with h | h
      · simp at h
      · exact h
    | IpSet name =>
      have hstep : Iptables.blacklistPortAdds (Rule.IpSet name :: rest) (ipsetFailEnv f e) =
          Iptables.blacklistPortAdds rest (ipsetFailEnv f e) := rfl
      rw [hstep]
      refine ih ⟨n, p, ?_⟩
      rcases List.mem_cons.mp h with h | h
      · simp at h
      · exact h

theorem configure_whitelist_chain_ipsetFail (f : Cmd → String) (e : String)
    (rp : RuleParser) (st : IpsetSt)
    (h : ∃ n p, Rule.Port n p ∈ rp.whitelist_rules) :
    (Iptables.configure_whitelist_chain rp st (ipsetFailEnv f e)).2 =
      Res.panicked e := by
  have hc : Iptables.create_or_reset_chain "ei-whitelist" (ipsetFailEnv f e) =
      (bothCmds ["-N", "ei-whitelist"] ++ bothCmds ["-F", "ei-whitelist"],
        Res.ok ()) := rfl
  have hl : Iptables.add_chain_to_chain_start "ei-whitelist" "ei" (ipsetFailEnv f e) =
      (bothCmds ["-D", "ei", "-j", "ei-whitelist"] ++
        bothCmds ["-I", "ei", "1", "-j", "ei-whitelist"], Res.ok ()) := rfl
  have hp := whitelistPortAdds_ipsetFail f e rp.whitelist_rules h
  have hppair : Iptables.whitelistPortAdds rp.whitelist_rules (ipsetFailEnv f e) =
      ((Iptables.whitelistPortAdds rp.whitelist_rules (ipsetFailEnv f e)).1,
        Res.panicked e) := by
    rw [← hp]
  have hstep : Iptables.configure_whitelist_chain rp st (ipsetFailEnv f e) =
      M.bind (Iptables.create_or_reset_chain "ei-whitelist")
        (fun _ =>
          M.bind (Iptables.add_chain_to_chain_start "ei-whitelist" "ei")
            (fun _ =>
              M.bind (Iptables.whitelistPortAdds rp.whitelist_rules)
                (fun _ => Iptables.whitelistAccepts
                  (Iptables.whitelistSetNames st.whitelist_sets))))
        (ipsetFailEnv f e) := rfl
  rw [hstep, bind_ok _ hc, bind_ok _ hl, bind_panicked _ hppair]

theorem configure_blacklist_chain_ipsetFail (f : Cmd → String) (e : String)
    (rp : RuleParser) (st : IpsetSt)
    (h : ∃ n p, Rule.Port n p ∈ rp.blacklist_rules) :
    (Iptables.configure_blacklist_chain rp st (ipsetFailEnv f e)).2 =
      Res.panicked e := by
  have hc : Iptables.create_or_reset_chain "ei-blacklist" (ipsetFailEnv f e) =
      (bothCmds ["-N", "ei-blacklist"] ++ bothCmds ["-F", "ei-blacklist"],
        Res.ok ()) := rfl
  have hl : Iptables.add_chain_to_chain "ei-blacklist" "ei" (ipsetFailEnv f e) =
      (bothCmds ["-D", "ei", "-j", "ei-blacklist"] ++
        bothCmds ["-A", "ei", "-j", "ei-blacklist"], Res.ok ()) := rfl
  have hp := blacklistPortAdds_ipsetFail f e rp.blacklist_rules h
  have hppair : Iptables.blacklistPortAdds rp.blacklist_rules (ipsetFailEnv f e) =
      ((Iptables.blacklistPortAdds rp.blacklist_rules (ipsetFailEnv f e)).1,
        Res.panicked e) := by
    rw [← hp]
  have hstep : Iptables.configure_blacklist_chain rp st (ipsetFailEnv f e) =
      M.bind (Iptables.create_or_reset_chain "ei-blacklist")
        (fun _ =>
          M.bind (Iptables.add_chain_to_chain "ei-blacklist" "ei")
            (fun _ =>
              M.bind (Iptables.blacklistPortAdds rp.blacklist_rules)
                (fun _ => Iptables.blacklistDrops
                  (Iptables.blacklistSetNames st.blacklist_sets))))
        (ipsetFailEnv f e) := rfl
  rw [hstep, bind_ok _ hc, bind_ok _ hl, bind_panicked _ hppair]

/-! The ten claims. -/

/-- Claim C1, counterexample: with one deny-tagged set name `x`, populating
    the deny chain emits the v4 drop match rule but no v6 drop match rule,
    and the operation still reports success — refuting that the drop rule
    is applied to both address families. -/
theorem c1_counterexample :
    v4cmd (dropArgs "ei-x-ipv4") ∈
      runTr (Iptables.configure_blacklist_chain rpEmpty ⟨[], ["x"]⟩)
        (okEnv fun _ => "") ∧
    v6cmd (dropArgs "ei-x-ipv4") ∉
      runTr (Iptables.configure_blacklist_chain rpEmpty ⟨[], ["x"]⟩)
        (okEnv fun _ => "") ∧
    resOf (Iptables.configure_blacklist_chain rpEmpty ⟨[], ["x"]⟩)
      (okEnv fun _ => "") = Res.ok () := by
  refine ⟨by decide, by decide, rfl⟩

/-- Claim C1, amended: the chain setup steps of the deny chain go through
    `execute_both`, but every drop match rule emitted while populating the
    deny chain goes to the v4 backend only — one v4 drop rule per
    deny-tagged set name expansion, no v6 drop rule at all — and the
    operation succeeds without any v6 drop having been issued. -/
theorem c1_blacklist_drops_v4_only (f : Cmd → String) (rp : RuleParser)
    (st : IpsetSt) :
    (runTr (Iptables.configure_blacklist_chain rp st) (okEnv f)).filter
        isDenyRuleCmd =
      (Iptables.blacklistSetNames st.blacklist_sets).map
        (fun s => v4cmd (dropArgs s)) ∧
    (runTr (Iptables.configure_blacklist_chain rp st) (okEnv f)).filter
      (fun c => c.prog == "ip6tables" && isDenyRuleCmd c) = [] ∧
    resOf (Iptables.configure_blacklist_chain rp st) (okEnv f) = Res.ok () := by
  have h := configure_blacklist_chain_okEnv f rp st
  simp only [runTr, resOf, h]
  exact ⟨blTraceOf_filter_deny rp st, blTraceOf_filter_v6_deny rp st, trivial⟩

/-- Claim C2, counterexample: `"0/tcp"` parses successfully to port rule 0,
    refuting that port 0 is rejected with a validation error. -/
theorem c2_counterexample :
    ruleFromStr "0/tcp" = Except.ok (Rule.Port 0 Protocol.TCP) ∧ ¬1 ≤ 0 := by
  exact ⟨rfl, by decide⟩

/-- Claim C2, amended: for every `"<port>/<protocol>"` input, parsing
    succeeds exactly when the port is an integer in 0..65535 (not 1..65535:
    0 is accepted) and the protocol is `tcp` or `udp` in any letter case,
    and the parsed rule carries exactly the written port number. -/
theorem c2_port_range (n : Nat) (t : List Char) (ht : '/' ∉ t) :
    ((ruleFromStr (String.mk (natToChars n ++ '/' :: t))).isOk = true ↔
      (n ≤ 65535 ∧ (lowerChars t = "tcp".data ∨ lowerChars t = "udp".data))) ∧
    (lowerChars t = "tcp".data → n ≤ 65535 →
      ruleFromStr (String.mk (natToChars n ++ '/' :: t)) =
        Except.ok (Rule.Port n Protocol.TCP)) ∧
    (lowerChars t = "udp".data → n ≤ 65535 →
      ruleFromStr (String.mk (natToChars n ++ '/' :: t)) =
        Except.ok (Rule.Port n Protocol.UDP)) := by
  rw [ruleFromStr_port_eval n t ht, parseU16_natToChars n]
  by_cases hn : n ≤ 65535 <;>
    by_cases htcp : lowerChars t = "tcp".data <;>
      by_cases hudp : lowerChars t = "udp".data <;>
        simp [hn, htcp, hudp, protocolFromChars, Except.isOk, Except.toBool]

/-- Claim C2, witness: the amended theorem applied to `"80/TCP"` written as
    digits 8, 0 and the protocol characters. -/
theorem c2_witness :
    ((ruleFromStr (String.mk (natToChars 80 ++ '/' :: "TCP".data))).isOk = true ↔
      (80 ≤ 65535 ∧ (lowerChars "TCP".data = "tcp".data ∨
        lowerChars "TCP".data = "udp".data))) ∧
    (lowerChars "TCP".data = "tcp".data → 80 ≤ 65535 →
      ruleFromStr (String.mk (natToChars 80 ++ '/' :: "TCP".data)) =
        Except.ok (Rule.Port 80 Protocol.TCP)) ∧
    (lowerChars "TCP".data = "udp".data → 80 ≤ 65535 →
      ruleFromStr (String.mk (natToChars 80 ++ '/' :: "TCP".data)) =
        Except.ok (Rule.Port 80 Protocol.UDP)) :=
  c2_port_range 80 "TCP".data (by decide)

/-- Claim C3, counterexample: with one pre-existing rule in the inbound
    chain, replaying the commands `init` emits leaves the root-chain jump
    and the loopback accept at the tail, after the pre-existing rule — and
    no insert-mode (`-I`) command is emitted at all — refuting head linking
    and early loopback accept. -/
theorem c3_counterexample :
    simChain "INPUT" [["-s", "198.51.100.0/24", "-j", "DROP"]]
        (runTr Iptables.init (okEnv fun _ => "")) =
      [["-s", "198.51.100.0/24", "-j", "DROP"], ["-j", "ei"],
        ["-i", "lo", "-j", "ACCEPT"]] ∧
    (runTr Iptables.init (okEnv fun _ => "")).all
      (fun c => c.args.headD "" != "-I") = true := by
  exact ⟨by decide, by decide⟩

/-- Claim C3, amended: `init` emits exactly append-mode commands: it
    appends the root-chain jump at the tail of both INPUT and FORWARD and
    appends the loopback accept rule after it, so both built-in chains end
    with their prior rules followed by the root-chain jump followed by the
    loopback accept — the loopback accept is evaluated last, not first. -/
theorem c3_append_semantics (f : Cmd → String) (l0 : List (List String)) :
    runTr Iptables.init (okEnv f) = initTrace ∧
    resOf Iptables.init (okEnv f) = Res.ok () ∧
    simChain "INPUT" l0 initTrace =
      l0 ++ [["-j", "ei"], ["-i", "lo", "-j", "ACCEPT"]] ∧
    simChain "FORWARD" l0 initTrace =
      l0 ++ [["-j", "ei"], ["-i", "lo", "-j", "ACCEPT"]] := by
  refine ⟨by simp only [runTr, init_okEnv f], by simp only [resOf, init_okEnv f], ?_, ?_⟩ <;>
    simp [initTrace, simChain, applyChainCmd, bothCmds, v4cmd, v6cmd]

/-- Claim C4, counterexample: with one whitelist port rule and a failing
    set backend, populating the allow chain terminates abnormally (a panic
    from `.unwrap()`), not with an error result — refuting propagation to
    the orchestration boundary. -/
theorem c4_counterexample :
    resOf (Iptables.configure_whitelist_chain
        ⟨[Rule.Port 80 Protocol.TCP], []⟩ stEmpty) addFailEnv =
      Res.panicked "boom" ∧
    (Res.panicked "boom" : Res Unit) ≠ Res.err "boom" := by
  exact ⟨rfl, by decide⟩

/-- Claim C4, amended: whenever the access-list rules contain a port rule
    and the set-backend add operation fails, populating the allow or deny
    chain panics with the backend's error (Rust `.unwrap()`), terminating
    abnormally instead of returning the failure as an error result. -/
theorem c4_add_failure_panics (f : Cmd → String) (e : String)
    (rp : RuleParser) (st : IpsetSt) :
    ((∃ n p, Rule.Port n p ∈ rp.whitelist_rules) →
      (Iptables.configure_whitelist_chain rp st (ipsetFailEnv f e)).2 =
        Res.panicked e) ∧
    ((∃ n p, Rule.Port n p ∈ rp.blacklist_rules) →
      (Iptables.configure_blacklist_chain rp st (ipsetFailEnv f e)).2 =
        Res.panicked e) :=
  ⟨configure_whitelist_chain_ipsetFail f e rp st,
    configure_blacklist_chain_ipsetFail f e rp st⟩

/-- Claim C4, witness: the amended theorem applied to a parser holding one
    whitelist port rule 80/tcp and one blacklist port rule 53/udp. -/
theorem c4_witness :
    (Iptables.configure_whitelist_chain
        ⟨[Rule.Port 80 Protocol.TCP], [Rule.Port 53 Protocol.UDP]⟩ stEmpty
        (ipsetFailEnv (fun _ => "") "boom")).2 = Res.panicked "boom" ∧
    (Iptables.configure_blacklist_chain
        ⟨[Rule.Port 80 Protocol.TCP], [Rule.Port 53 Protocol.UDP]⟩ stEmpty
        (ipsetFailEnv (fun _ => "") "boom")).2 = Res.panicked "boom" :=
  ⟨(c4_add_failure_panics (fun _ => "") "boom"
      ⟨[Rule.Port 80 Protocol.TCP], [Rule.Port 53 Protocol.UDP]⟩ stEmpty).1
      ⟨80, Protocol.TCP, List.mem_singleton.mpr rfl⟩,
    (c4_add_failure_panics (fun _ => "") "boom"
      ⟨[Rule.Port 80 Protocol.TCP], [Rule.Port 53 Protocol.UDP]⟩ stEmpty).2
      ⟨53, Protocol.UDP, List.mem_singleton.mpr rfl⟩⟩

/-- Claim C5, counterexample: a configuration whose whitelist references
    `iplist:foo` while the configured list map enables `foo` hands the
    pipeline the `foo` provider twice — once from rule resolution, once
    from `load_from_config` — so its IPv4 set is created/reset twice in one
    reconciliation, refuting that exactly the resolved providers are
    fetched and none more than once. -/
theorem c5_counterexample :
    loadProviders c5Config ≠
      resolve_all c5Config.iplists
        (RuleParser.parse_config c5Config).get_iplist_rules ∧
    loadProviders c5Config =
      [configuredProvider "foo" fooCfg, configuredProvider "foo" fooCfg] ∧
    (runTr (update_all (okFetch fun _ => "") (loadProviders c5Config))
        (okEnv fun _ => "")).count
      (ipsetCmd ["create", "ei-foo-ipv4", "hash:ip", "family", "inet",
        "maxelem", "65536"]) = 2 := by
  refine ⟨by decide, rfl, by decide⟩

/-- Claim C5, amended: one reconciliation runs the fetch-and-populate
    pipeline over the providers resolved from the IpList rules of the two
    access lists (input order, unresolved filtered out) and then,
    additionally, over one provider per enabled configured list — each
    occurrence processed exactly once, in that order. -/
theorem c5_pipeline_providers (cfg : Config) (f : Cmd → String)
    (g : String → String) :
    update_all (okFetch g) (loadProviders cfg) (okEnv f) =
      ((resolve_all cfg.iplists
          (RuleParser.parse_config cfg).get_iplist_rules).flatMap (ulTrace g) ++
        (load_from_config_lists cfg).flatMap (ulTrace g), Res.ok ()) := by
  rw [update_all_okFetch f g (loadProviders cfg)]
  simp [loadProviders]

/-- Claim C6: evaluating `create_or_reset_chain` on a backend where the
    chain already exists (the `-N` creation step fails): the failure is not
    ignored — it propagates, the flush is never issued and the operation
    fails, although the flush would have succeeded. -/
theorem c6_create_failure_propagates :
    Iptables.create_or_reset_chain "ei-whitelist" existsChainEnv =
      ([v4cmd ["-N", "ei-whitelist"]], Res.err "Chain already exists") ∧
    v4cmd ["-F", "ei-whitelist"] ∉
      (Iptables.create_or_reset_chain "ei-whitelist" existsChainEnv).1 ∧
    existsChainEnv (v4cmd ["-F", "ei-whitelist"]) = Except.ok "" := by
  refine ⟨rfl, by decide, rfl⟩

/-- Claim C7: on every configuration and rule input, the root-chain link
    operations a reconciliation emits are exactly: whitelist unlink and
    insert-at-head first, then blacklist unlink and append, then the
    feature links — and replaying the emitted commands on an empty root
    chain leaves the allow-chain jump at the head, the deny-chain jump
    second, and all policy rules after it. -/
theorem c7_chain_priority (f : Cmd → String) (cfg : Config) (rp : RuleParser)
    (st : IpsetSt) :
    eiCmdsOf (runTr (Iptables.configure_with_rules cfg rp st) (okEnv f)) =
      accessEiCmds ++ featureEiCmds cfg ∧
    simChain "ei" [] (runTr (Iptables.configure_with_rules cfg rp st) (okEnv f)) =
      rootChainRules cfg := by
  have h := configure_with_rules_okEnv f cfg rp st
  constructor
  · simp only [runTr, h]
    have hsplit : eiCmdsOf (wlTraceOf rp st ++ blTraceOf rp st ++ configTrace cfg) =
        eiCmdsOf (wlTraceOf rp st) ++ eiCmdsOf (blTraceOf rp st) ++
          eiCmdsOf (configTrace cfg) := by
      simp [eiCmdsOf, List.filter_append]
    rw [hsplit, wlTraceOf_filter_root, blTraceOf_filter_root,
      configTrace_filter_root]
    simp [accessEiCmds]
  · simp only [runTr, h]
    rw [simChain_append, simChain_append, simChain_wlTrace, simChain_blTrace]
    have h1 : (List.erase ([] : List (List String)) ["-j", "ei-whitelist"]) = [] := rfl
    have h2 : (List.erase ([["-j", "ei-whitelist"]] : List (List String))
        ["-j", "ei-blacklist"]) = [["-j", "ei-whitelist"]] := by decide
    rw [h1, h2]
    exact simChain_configTrace cfg

/-- Claim C8: when `update_all` fails, the provider list splits into a
    fully-processed prefix (each member's update succeeded and its commands
    are all in the trace — no rollback), the failing provider, and a
    suffix that was never attempted: the trace consists exactly of the
    prefix providers' commands followed by the failing provider's partial
    commands, and the failure is returned. -/
theorem c8_failfast (fetch : Fetch) (env : Env) (ps : List Provider)
    (e : String) (h : resOf (update_all fetch ps) env = Res.err e) :
    ∃ pre p post, ps = pre ++ p :: post ∧
      (∀ q ∈ pre, resOf (update_list fetch q) env = Res.ok ()) ∧
      resOf (update_list fetch p) env = Res.err e ∧
      runTr (update_all fetch ps) env =
        pre.flatMap (fun q => runTr (update_list fetch q) env) ++
          runTr (update_list fetch p) env := by
  have hpair : update_all fetch ps env =
      ((update_all fetch ps env).1, Res.err e) := by
    rw [← h]
    rfl
  obtain ⟨pre, p, post, tp, hsplit, hpre, hfail, htr⟩ :=
    update_all_err_split fetch env ps e (update_all fetch ps env).1 hpair
  refine ⟨pre, p, post, hsplit, ?_, ?_, ?_⟩
  · intro q hq
    obtain ⟨tq, hq2⟩ := hpre q hq
    simp [resOf, hq2]
  · simp [resOf, hfail]
  · simp only [runTr, htr, hfail]

/-- Claim C8, witness: two providers under a fetch oracle failing on the
    second provider's IPv4 URL — the first is fully processed, the second
    fails, and the theorem's decomposition holds. -/
theorem c8_witness :
    resOf (update_all failFetch [provA, provB]) (okEnv fun _ => "") =
      Res.err "network unreachable" ∧
    ∃ pre p post, [provA, provB] = pre ++ p :: post ∧
      (∀ q ∈ pre, resOf (update_list failFetch q) (okEnv fun _ => "") = Res.ok ()) ∧
      resOf (update_list failFetch p) (okEnv fun _ => "") =
        Res.err "network unreachable" ∧
      runTr (update_all failFetch [provA, provB]) (okEnv fun _ => "") =
        pre.flatMap (fun q => runTr (update_list failFetch q) (okEnv fun _ => "")) ++
          runTr (update_list failFetch p) (okEnv fun _ => "") :=
  ⟨by decide, c8_failfast failFetch (okEnv fun _ => "") [provA, provB]
    "network unreachable" (by decide)⟩

/-- Claim C9, counterexample: on a backend enumerating 443 and 80 for TCP
    and 53 for UDP, `list_ports` returns the list sorted ascending by
    port — `[(53,udp), (80,tcp), (443,tcp)]` — and not the claimed
    `[(80,tcp), (443,tcp), (53,udp)]`. -/
theorem c9_counterexample :
    resOf Ipset.list_ports portsEnv =
      Res.ok [(53, Protocol.UDP), (80, Protocol.TCP), (443, Protocol.TCP)] ∧
    [(53, Protocol.UDP), (80, Protocol.TCP), (443, Protocol.TCP)] ≠
      [(80, Protocol.TCP), (443, Protocol.TCP), (53, Protocol.UDP)] := by
  exact ⟨by decide, by decide⟩

/-- Claim C9, amended: for every pair of backend outputs, `list_ports`
    returns the parsed TCP members followed by the UDP members stably
    sorted by port number: the result is a permutation of the parsed
    entries, ordered ascending by port with any equal-port tie keeping TCP
    (enumerated first) before UDP; on the backend `{443/tcp, 80/tcp,
    53/udp}` it returns `[(53,udp), (80,tcp), (443,tcp)]`. -/
theorem c9_sorted (env : Env) :
    resOf Ipset.list_ports env =
      Res.ok (Ipset.sortPorts (tcpEntries env ++ udpEntries env)) ∧
    (Ipset.sortPorts (tcpEntries env ++ udpEntries env)).Pairwise portsOrdered ∧
    (Ipset.sortPorts (tcpEntries env ++ udpEntries env)).Perm
      (tcpEntries env ++ udpEntries env) ∧
    resOf Ipset.list_ports portsEnv =
      Res.ok [(53, Protocol.UDP), (80, Protocol.TCP), (443, Protocol.TCP)] := by
  refine ⟨by simp [resOf, list_ports_run env], ?_, sortPorts_perm _, by decide⟩
  obtain ⟨tcp, htcp⟩ := tcpEntries_shape env
  obtain ⟨udp, hudp⟩ := udpEntries_shape env
  rw [htcp, hudp]
  exact sortPorts_pairwise (entries_tieCompatible tcp udp)

/-- Claim C10: with the badtcp feature enabled and every external command
    succeeding, the feature phase emits its commands up to exactly one
    drop rule per family and then stops at the unconditional `todo!` panic;
    no reconciliation with the feature enabled can return success under any
    oracle; with the feature disabled, no command of that code path — no
    `ei-badtcp` chain command and no malformed-TCP drop rule — is ever
    emitted, under any oracle. -/
theorem c10_badtcp_todo (f : Cmd → String) (cfg : Config) (rp : RuleParser)
    (st : IpsetSt) (env : Env) :
    Iptables.configure cfg (okEnv f) =
      (configTrace cfg,
        if cfg.features.block_badtcp then Res.panicked todoMsg else Res.ok ()) ∧
    (cfg.features.block_badtcp = true →
      configTrace cfg =
        (if cfg.features.portforward then pfTrace else []) ++ btTrace ∧
      (Iptables.configure_with_rules cfg rp st env).2 ≠ Res.ok ()) ∧
    (cfg.features.block_badtcp = false →
      ∀ c ∈ (Iptables.configure cfg env).1,
        c.args ≠ ["-N", "ei-badtcp"] ∧ c.args ≠ ["-F", "ei-badtcp"] ∧
        c.args ≠ ["-D", "ei", "-j", "ei-badtcp"] ∧
        c.args ≠ ["-A", "ei", "-j", "ei-badtcp"] ∧
        c.args ≠ badtcpDropArgs) := by
  refine ⟨configure_okEnv f cfg, fun hbt => ⟨?_, ?_⟩, fun hbt c hc => ?_⟩
  · simp [configTrace, hbt]
  · exact configure_with_rules_never_ok_of_badtcp rp st env hbt
  · exact mem_configure_no_badtcp hbt hc

/-- Claim C10, witness: the theorem applied to a concrete configuration
    with badtcp enabled (a reconciliation that cannot succeed) and, with
    the contrapositive configuration, to a concrete command of the
    disabled run. -/
theorem c10_witness :
    (Iptables.configure_with_rules cfgBadtcpOn rpEmpty stEmpty
      (okEnv fun _ => "")).2 ≠ Res.ok () ∧
    (v4cmd ["-N", "ei-ports"] ∈
      (Iptables.configure cfgBadtcpOff (okEnv fun _ => "")).1 ∧
      (v4cmd ["-N", "ei-ports"]).args ≠ badtcpDropArgs) :=
  ⟨((c10_badtcp_todo (fun _ => "") cfgBadtcpOn rpEmpty stEmpty
      (okEnv fun _ => "")).2.1 rfl).2,
    by decide,
    (((c10_badtcp_todo (fun _ => "") cfgBadtcpOff rpEmpty stEmpty
      (okEnv fun _ => "")).2.2 rfl (v4cmd ["-N", "ei-ports"])
      (by decide)).2.2.2.2)⟩
